import Mathlib

/-!
Shallow embedding of the San-Francisco-Micromobility-Navigator backend
(risk-zone service, bike-lane service, polyline decoding and the routing
orchestrator) together with proofs about the spec's claims.

Python floats are modelled as real numbers; Python dictionaries coming from
the database or from engine JSON are modelled as structures carrying exactly
the fields the code reads (a `.get` with a default is modelled by an
`Option` field read with `getD`, or by the default being supplied at
construction when the producing code always sets the key).
-/

namespace SFMM

open Real

/-- `math.radians` -/
noncomputable def radians (x : ℝ) : ℝ := x * Real.pi / 180

/-- `math.atan2` (Python/C semantics on the reals, ignoring signed zeros). -/
noncomputable def atan2 (y x : ℝ) : ℝ :=
  if 0 < x then Real.arctan (y / x)
  else if x < 0 then
    (if 0 ≤ y then Real.arctan (y / x) + Real.pi else Real.arctan (y / x) - Real.pi)
  else if 0 < y then Real.pi / 2
  else if y < 0 then -(Real.pi / 2)
  else 0

/-- `RiskZoneService._haversine_distance` (identical to
`BikeLaneService._haversine_distance` and the inline copy in
`_generate_mock_route`). -/
noncomputable def _haversine_distance (lat1 lon1 lat2 lon2 : ℝ) : ℝ :=
  let R : ℝ := 6371000
  let lat1_rad := radians lat1
  let lat2_rad := radians lat2
  let dlat := radians (lat2 - lat1)
  let dlon := radians (lon2 - lon1)
  let a := Real.sin (dlat / 2) ^ 2 +
    Real.cos lat1_rad * Real.cos lat2_rad * Real.sin (dlon / 2) ^ 2
  let c := 2 * atan2 (Real.sqrt a) (Real.sqrt (1 - a))
  R * c

/-- Python `round` to an integer: round-half-to-even (banker's rounding). -/
noncomputable def roundHalfEven (y : ℝ) : ℤ :=
  if Int.fract y = 1 / 2 then 2 * round (y / 2) else round y

/-- Python `round(x, ndigits)`. -/
noncomputable def pyRound (ndigits : ℕ) (x : ℝ) : ℝ :=
  (roundHalfEven (x * 10 ^ ndigits) : ℝ) / 10 ^ ndigits

/-- Python `int(x)`: truncation toward zero. -/
noncomputable def pyInt (x : ℝ) : ℤ :=
  if 0 ≤ x then ⌊x⌋ else -⌊-x⌋

/-- A risk zone as produced by `RiskZoneService._fetch_zones_from_db`
(the dict always carries all six keys). -/
structure Zone where
  id : String
  lon : ℝ
  lat : ℝ
  radius_meters : ℝ
  severity : String
  reported_count : ℤ

/-- The `severity_thresholds` dict in `filter_zones_by_severity`. -/
def severity_thresholds (s : String) : Option ℤ :=
  if s = "LOW" then some 140
  else if s = "MEDIUM" then some 140
  else if s = "HIGH" then some 180
  else if s = "CRITICAL" then some 230
  else none

/-- Python's `str.upper()` (ASCII view, which is all the call sites use). -/
def pyUpper (s : String) : String := String.mk (s.data.map Char.toUpper)

/-- `RiskZoneService.filter_zones_by_severity`. -/
def filter_zones_by_severity (zones : List Zone) (min_severity : String) : List Zone :=
  let min_count := (severity_thresholds (pyUpper min_severity)).getD 160
  zones.filter (fun z => min_count ≤ z.reported_count)

/-- One entry of the `violations` list built by `validate_route_against_zones`. -/
structure Violation where
  zone_id : String
  reported_count : ℤ
  distance_m : ℝ
  zone_radius_m : ℝ
  avoidance_radius_m : ℝ

/-- Route coordinates are `[lon, lat]` pairs: `.1` is the longitude and
`.2` the latitude, exactly as `coord[0]` / `coord[1]` in the source. -/
abbrev Coord := ℝ × ℝ

open Classical in
/-- `RiskZoneService.validate_route_against_zones`.  The Python inner loop
appends one violation per offending zone, recording the first route point
that falls inside the avoidance radius, then breaks; `List.find?` captures
exactly that first point. -/
noncomputable def validate_route_against_zones (route_coords : List Coord)
    (zones : List Zone) (min_severity : String) (radius_factor : ℝ) :
    Bool × ℕ × List Violation :=
  let filtered_zones := filter_zones_by_severity zones min_severity
  let violations := filtered_zones.filterMap (fun z =>
    let avoidance_radius := z.radius_meters * radius_factor
    (route_coords.find? (fun c =>
        decide (_haversine_distance c.2 c.1 z.lat z.lon < avoidance_radius))).map
      (fun c => Violation.mk z.id z.reported_count
        (pyRound 1 (_haversine_distance c.2 c.1 z.lat z.lon))
        z.radius_meters (pyRound 1 avoidance_radius)))
  (violations.length == 0, violations.length, violations)

/-- The `severity_weights` dict in `calculate_route_risk_score`. -/
noncomputable def severity_weights (s : String) : Option ℝ :=
  if s = "LOW" then some 0.25
  else if s = "MEDIUM" then some 0.5
  else if s = "HIGH" then some 1.0
  else if s = "CRITICAL" then some 1.5
  else none

open Classical in
/-- `RiskZoneService.calculate_route_risk_score`.  As in the source, each
zone contributes at most once, from the first route point that enters its
danger radius. -/
noncomputable def calculate_route_risk_score (route_coords : List Coord)
    (zones : List Zone) (radius_factor : ℝ) : ℝ × ℕ × List String :=
  if route_coords = [] ∨ zones = [] then (0.0, 0, [])
  else
    let hits := zones.filterMap (fun z =>
      let zone_radius := z.radius_meters * radius_factor
      (route_coords.find? (fun c =>
          decide (_haversine_distance c.2 c.1 z.lat z.lon < zone_radius))).map
        (fun c => (z, c)))
    let total_risk_points := hits.foldl (fun acc zc =>
      let z := zc.1
      let c := zc.2
      let zone_radius := z.radius_meters * radius_factor
      let dist := _haversine_distance c.2 c.1 z.lat z.lon
      let closeness := if zone_radius > 0 then 1 - dist / zone_radius else 1.0
      let weight := (severity_weights z.severity).getD 0.5
      acc + closeness * weight) 0
    let risk_score := min 1.0 (total_risk_points / (zones.length * 0.3))
    (risk_score, hits.length, hits.map (fun zc => zc.1.id))

/-- `RiskZoneService.create_circular_polygon`.  The closing
`coords.append(coords[0])` is `coords ++ coords.take 1` (all call sites pass
`num_points ≥ 8`, so the list is never empty). -/
noncomputable def create_circular_polygon (lon lat radius_meters : ℝ)
    (num_points : ℕ) : List Coord :=
  let lat_offset := radius_meters / 111000
  let lon_offset := radius_meters / (111000 * Real.cos (radians lat))
  let coords := (List.range num_points).map (fun i =>
    let angle := (2 * Real.pi * i) / num_points
    (lon + lon_offset * Real.cos angle, lat + lat_offset * Real.sin angle))
  coords ++ coords.take 1

/-- Descending stable sort by `reported_count`
(`filtered_zones.sort(key=..., reverse=True)`). -/
def sortZonesDesc (zones : List Zone) : List Zone :=
  zones.mergeSort (fun a b => b.reported_count ≤ a.reported_count)

open Classical in
/-- The selection loop of `get_exclude_polygons_for_safest`: walks the
sorted zones, keeping the running total of circle circumferences, and stops
at the first zone whose circumference would push the total past the budget.
Returns the selected `(zone, capped radius)` pairs and the final total. -/
noncomputable def excludeSelect (buffer_multiplier max_total_circumference : ℝ) :
    List Zone → ℝ → List (Zone × ℝ) × ℝ
  | [], total => ([], total)
  | z :: zs, total =>
    let radius := min z.radius_meters 150 * buffer_multiplier
    let circumference := 2 * Real.pi * radius
    if total + circumference > max_total_circumference then ([], total)
    else
      let rest := excludeSelect buffer_multiplier max_total_circumference zs
        (total + circumference)
      ((z, radius) :: rest.1, rest.2)

open Classical in
/-- `RiskZoneService.get_exclude_polygons_for_safest` (the zone list stands
for the snapshot returned by `get_risk_zones`). -/
noncomputable def get_exclude_polygons_for_safest (zones : List Zone)
    (buffer_multiplier : ℝ) (min_severity : String)
    (max_total_circumference : ℝ) : List (List Coord) :=
  if zones = [] then []
  else
    let filtered_zones := sortZonesDesc (filter_zones_by_severity zones min_severity)
    let selected := (excludeSelect buffer_multiplier max_total_circumference
      filtered_zones 0).1
    selected.map (fun zr => create_circular_polygon zr.1.lon zr.1.lat zr.2 8)

open Classical in
/-- The batching loop of `get_exclude_polygon_batches`: when a zone would
overflow the running batch, the batch is flushed and a fresh one starts. -/
noncomputable def batchSelect (buffer_multiplier max_total_circumference : ℝ) :
    List Zone → List (Zone × ℝ) → ℝ → List (List (Zone × ℝ))
  | [], current_batch, _ =>
    if current_batch = [] then [] else [current_batch.reverse]
  | z :: zs, current_batch, current_circumference =>
    let radius := min z.radius_meters 150 * buffer_multiplier
    let circumference := 2 * Real.pi * radius
    if current_circumference + circumference > max_total_circumference then
      (if current_batch = [] then [] else [current_batch.reverse]) ++
        batchSelect buffer_multiplier max_total_circumference zs [(z, radius)]
          circumference
    else
      batchSelect buffer_multiplier max_total_circumference zs
        ((z, radius) :: current_batch) (current_circumference + circumference)

open Classical in
/-- `RiskZoneService.get_exclude_polygon_batches`. -/
noncomputable def get_exclude_polygon_batches (zones : List Zone)
    (buffer_multiplier : ℝ) (min_severity : String)
    (max_total_circumference : ℝ) : List (List (List Coord)) :=
  if zones = [] then []
  else
    let filtered_zones := sortZonesDesc (filter_zones_by_severity zones min_severity)
    let batches := batchSelect buffer_multiplier max_total_circumference
      filtered_zones [] 0
    batches.map (fun batch =>
      batch.map (fun zr => create_circular_polygon zr.1.lon zr.1.lat zr.2 8))

/-- Python `~x` on arbitrary-precision integers. -/
def pyNot (x : ℤ) : ℤ := -(x + 1)

/-- One inner `while True` loop of `_decode_polyline`: reads bytes
`b = ord(c) - 63`, accumulates `result |= (b & 0x1F) << shift`, and stops
when `b < 0x20`.  Running off the end of the string (Python's `IndexError`)
is `none`. -/
def parseVarint : List Char → ℕ → ℤ → Option (ℤ × List Char)
  | [], _, _ => none
  | c :: rest, shift, result =>
    let b : ℤ := (c.toNat : ℤ) - 63
    let result := Int.lor result ((Int.land b 31) <<< (shift : ℤ))
    if b < 32 then some (result, rest) else parseVarint rest (shift + 5) result

/-- The two-varint-per-point outer loop of `_decode_polyline`, carrying the
running `lat`/`lng` accumulators.  Coordinates are exact rationals
`value / 10^precision`, emitted as `[lon, lat]` pairs.  Structural recursion
on a fuel argument; since every iteration consumes at least two characters,
fuel equal to the character count makes the fuel-exhaustion branch
unreachable, so the function agrees with the Python loop, with `none`
standing for the `IndexError` raised past the end of the string. -/
def decodeLoop (precision : ℕ) : ℕ → List Char → ℤ → ℤ → Option (List (ℚ × ℚ))
  | 0, [], _, _ => some []
  | 0, _ :: _, _, _ => none
  | _ + 1, [], _, _ => some []
  | fuel + 1, c :: cs, lat, lng =>
    match parseVarint (c :: cs) 0 0 with
    | none => none
    | some (r1, rest1) =>
      let dlat := if Int.land r1 1 = 1 then pyNot (r1 >>> 1) else r1 >>> 1
      match parseVarint rest1 0 0 with
      | none => none
      | some (r2, rest2) =>
        let dlng := if Int.land r2 1 = 1 then pyNot (r2 >>> 1) else r2 >>> 1
        match decodeLoop precision fuel rest2 (lat + dlat) (lng + dlng) with
        | none => none
        | some tail =>
          some ((Rat.divInt (lng + dlng) ((10 ^ precision : ℕ) : ℤ),
                 Rat.divInt (lat + dlat) ((10 ^ precision : ℕ) : ℤ)) :: tail)

/-- `RoutingEngine._decode_polyline`.  Returns `none` where the Python code
raises `IndexError` by indexing past the end of the string. -/
def _decode_polyline (encoded : String) (precision : ℕ) : Option (List (ℚ × ℚ)) :=
  decodeLoop precision encoded.toList.length encoded.toList 0 0

/-- Grammar of one varint group of a Google-style encoded polyline: any run
of continuation bytes (`ord(c) - 63 ≥ 0x20`) closed by a terminating byte.
Returns the remaining characters. -/
def chunkSpan : List Char → Option (List Char)
  | [] => none
  | c :: rest => if (c.toNat : ℤ) - 63 < 32 then some rest else chunkSpan rest

/-- Fueled grammar check: the character list is a concatenation of a whole
number of coordinate pairs, each made of two complete varint groups.  As
with `decodeLoop`, fuel equal to the character count is always enough. -/
def wellFormedAux : ℕ → List Char → Bool
  | 0, [] => true
  | 0, _ :: _ => false
  | _ + 1, [] => true
  | fuel + 1, c :: cs =>
    match chunkSpan (c :: cs) with
    | none => false
    | some rest1 =>
      match chunkSpan rest1 with
      | none => false
      | some rest2 => wellFormedAux fuel rest2

/-- A well-formed precision-6 polyline string: a whole number of coordinate
pairs, each made of two complete varint groups. -/
def wellFormedPolyline (s : String) : Bool :=
  wellFormedAux s.toList.length s.toList

/-- The avoidance radius factor the orchestrator passes to
`validate_route_against_zones`: `0.25 if min_severity == "LOW" else 0.2`
(this exact expression appears at every call site in
`_calculate_safest_route`, `_iterative_zone_avoidance` and
`_try_waypoint_avoidance`). -/
noncomputable def avoidance_factor (min_severity : String) : ℝ :=
  if min_severity = "LOW" then 0.25 else 0.2

/-- A concrete HIGH-severity zone centred on the origin of the
equator/prime-meridian grid, used by concrete evaluations below. -/
noncomputable def zoneHigh : Zone :=
  { id := "z-high", lon := 0, lat := 0, radius_meters := 400000,
    severity := "HIGH", reported_count := 200 }

/-- A concrete two-point route on the equator: first point 0.8 degrees of
longitude from `zoneHigh`'s centre, second point 0.1 degrees away.  Both lie
inside the `0.25 * 400000 = 100000` metre avoidance radius, the first one
much farther from the centre than the second. -/
noncomputable def routeFarNear : List Coord := [(0.8, 0), (0.1, 0)]

/-! #### Bike-lane service -/

open Classical in
/-- `BikeLaneService.calculate_bike_lane_percentage`.  The shapely union of
Class I/II/IV bike-lane geometries is an external collaborator; it enters
as `geomDist`, the degree-distance function `(lon, lat) ↦
Point(lon, lat).distance(union)`, with `none` for the
`_bike_lanes_geometry is None` case (source unavailable / no features).
Only the percentage is modelled; the `stats` dict the Python function also
returns is read by no caller. -/
noncomputable def calculate_bike_lane_percentage
    (geomDist : Option (ℝ → ℝ → ℝ)) (route_coordinates : List Coord)
    (max_distance_meters : ℝ) : ℝ :=
  if route_coordinates.length < 2 then 0.0
  else match geomDist with
  | none => 0.0
  | some dist =>
    let max_distance_degrees := max_distance_meters / 90000
    let segs := route_coordinates.zip route_coordinates.tail
    let seg_len := fun (s : Coord × Coord) =>
      _haversine_distance s.1.2 s.1.1 s.2.2 s.2.1
    let check_points := fun (s : Coord × Coord) =>
      [(s.1.1, s.1.2),
       (s.1.1 + (s.2.1 - s.1.1) * 0.33, s.1.2 + (s.2.2 - s.1.2) * 0.33),
       (s.1.1 + (s.2.1 - s.1.1) * 0.67, s.1.2 + (s.2.2 - s.1.2) * 0.67),
       (s.2.1, s.2.2)]
    let seg_on := fun (s : Coord × Coord) =>
      2 ≤ ((check_points s).filter (fun p =>
        decide (dist p.1 p.2 ≤ max_distance_degrees))).length
    let total_distance := (segs.map seg_len).sum
    let bike_lane_distance :=
      (segs.map (fun s => if seg_on s then seg_len s else 0)).sum
    if total_distance = 0 then 0.0
    else pyRound 1 (min 100.0 (max 0.0 (bike_lane_distance / total_distance * 100)))

open Classical in
/-- The claim's version of the coverage measure, stated from the spec's
words for comparison with `calculate_bike_lane_percentage`: samples at
parametric positions exactly `1/3` and `2/3` (the code uses `0.33` and
`0.67`), and returns the clamped percentage with no rounding. -/
noncomputable def spec_calculate_bike_lane_percentage
    (geomDist : Option (ℝ → ℝ → ℝ)) (route_coordinates : List Coord)
    (max_distance_meters : ℝ) : ℝ :=
  if route_coordinates.length < 2 then 0.0
  else match geomDist with
  | none => 0.0
  | some dist =>
    let max_distance_degrees := max_distance_meters / 90000
    let segs := route_coordinates.zip route_coordinates.tail
    let seg_len := fun (s : Coord × Coord) =>
      _haversine_distance s.1.2 s.1.1 s.2.2 s.2.1
    let check_points := fun (s : Coord × Coord) =>
      [(s.1.1, s.1.2),
       (s.1.1 + (s.2.1 - s.1.1) * (1/3), s.1.2 + (s.2.2 - s.1.2) * (1/3)),
       (s.1.1 + (s.2.1 - s.1.1) * (2/3), s.1.2 + (s.2.2 - s.1.2) * (2/3)),
       (s.2.1, s.2.2)]
    let seg_on := fun (s : Coord × Coord) =>
      2 ≤ ((check_points s).filter (fun p =>
        decide (dist p.1 p.2 ≤ max_distance_degrees))).length
    let total_distance := (segs.map seg_len).sum
    let bike_lane_distance :=
      (segs.map (fun s => if seg_on s then seg_len s else 0)).sum
    if total_distance = 0 then 0.0
    else min 100.0 (max 0.0 (bike_lane_distance / total_distance * 100))

open Classical in
/-- A concrete bike-lane-union distance function for the sampling
counterexample: the union is treated as lying exactly at the two points
`(0, 0)` and `(0.33, 0)` of the equator, one degree away from everything
else. -/
noncomputable def laneDistCex (lon lat : ℝ) : ℝ :=
  if (lon = 0 ∨ lon = 0.33) ∧ lat = 0 then 0 else 1

/-! #### Engine protocol and orchestrator state

The Valhalla engine is an external collaborator: each `self.client.post`
consumes the next element of a reply oracle (the claim-level "sequence of
engine responses") and records the request in a trace.  JSON dictionaries
are modelled as structures carrying the fields the code reads, with
`.get` defaults folded in at the read site. -/

/-- `trip["summary"]` / `leg["summary"]`: `length` in km, `time` in
seconds, both read with default `0`. -/
structure VSummary where
  length : ℝ
  time : ℝ

/-- One leg of a Valhalla trip, with the fields `_parse_valhalla_response`
reads.  `elevation_interval` is `none` when the key is absent (read with
default `30`). -/
structure VLeg where
  shape : String
  elevation : List ℝ
  elevation_interval : Option ℝ
  summary : VSummary

/-- `response["trip"]`. -/
structure VTrip where
  summary : VSummary
  legs : List VLeg

/-- One edge of a `/trace_attributes` response. -/
structure VEdge where
  length : ℝ
  cycle_lane : String
  use : String

/-- A parsed engine JSON body.  `trip` is `none` when the key is missing
(`response.get("trip", {})` then yields no legs); `alternates` is
`response.get("alternates", [])`; `edges` is `response.get("edges", [])`
for trace responses.  A JSON object can carry any of these keys, hence one
type. -/
inductive VResp where
  | mk (trip : Option VTrip) (alternates : List VResp) (edges : List VEdge)

def VResp.trip : VResp → Option VTrip
  | .mk t _ _ => t

def VResp.alternates : VResp → List VResp
  | .mk _ a _ => a

def VResp.edges : VResp → List VEdge
  | .mk _ _ e => e

/-- Outcome of one `client.post`: a transport exception, a non-2xx
response (`is_success` false), or a parsed 2xx JSON body. -/
inductive Reply where
  | err
  | failure
  | success (body : VResp)

/-- `costing_options["bicycle"]` as built by the orchestrator's request
builders. -/
structure BicycleOptions where
  bicycle_type : String
  use_roads : ℝ
  use_hills : ℝ
  avoid_bad_surfaces : ℝ
  shortest : Option Bool

structure VLocation where
  lat : ℝ
  lon : ℝ
  ltype : String

/-- An engine `/route` request (the constant fields `costing="bicycle"`,
`directions_options`, `elevation_interval=30` and `format="json"` are the
same in every request and are not repeated here). -/
structure VRequest where
  locations : List VLocation
  costing_options : BicycleOptions
  exclude_polygons : Option (List (List Coord))
  alternates : Option ℕ

/-- One outbound engine call, in order: a `/route` request or a
`/trace_attributes` request with the sampled shape. -/
inductive EngineCall where
  | route (req : VRequest)
  | trace (shape : List Coord)

/-- Oracle-and-trace state threaded through the orchestrator. -/
structure OrState where
  replies : List Reply
  calls : List EngineCall

/-- Consume the next oracle reply (an exhausted oracle behaves as a
transport error) and record the call. -/
def takeReply (st : OrState) (call : EngineCall) : Reply × OrState :=
  match st.replies with
  | [] => (Reply.err, ⟨[], st.calls ++ [call]⟩)
  | r :: rs => (r, ⟨rs, st.calls ++ [call]⟩)

/-- The Python exceptions that reach the routing API layer. -/
inductive PyErr where
  | connectErr
  | httpStatusErr
  | valueErr
  | indexErr
  | riskZoneErr

/-- External collaborators of the orchestrator: the outcome every
`risk_zone_service.get_risk_zones()` call yields during the request
(`none` = `RiskZoneServiceError`: source down and no cache), the bike-lane
union distance function (as in `calculate_bike_lane_percentage`), and the
`uuid.UUID` parse-success predicate used to filter risk-zone ids. -/
structure Ext where
  zoneFetch : Option (List Zone)
  laneDist : Option (ℝ → ℝ → ℝ)
  isUUID : String → Bool

def getRiskZonesE (ext : Ext) : Except PyErr (List Zone) :=
  match ext.zoneFetch with
  | some zs => .ok zs
  | none => .error .riskZoneErr

/-! #### Response data model (`app.schemas.routing`) -/

structure RouteSummary where
  distance_meters : ℤ
  duration_seconds : ℤ
  elevation_gain_meters : ℤ
  elevation_loss_meters : ℤ
  max_grade_percent : ℝ
  bike_lane_percentage : ℝ
  risk_score : ℝ

/-- A route leg (turn-by-turn maneuvers annotate the leg in the source but
are read by no claim and no downstream consumer in the core; they are not
modelled). -/
structure RouteLeg where
  geometry : List Coord
  distance_meters : ℤ
  duration_seconds : ℤ

structure RouteRiskAnalysis where
  total_risk_zones : ℕ
  high_severity_zones : ℕ
  risk_zone_ids : List String

/-- `RouteResponse` (the random `route_id` UUID is not modelled). -/
structure RouteResponse where
  geometry : List Coord
  summary : RouteSummary
  legs : List RouteLeg
  risk_analysis : RouteRiskAnalysis
  warnings : List String

inductive RouteProfile where
  | safest
  | fastest
  | balanced
  | scenic
  deriving DecidableEq

structure Coordinate where
  latitude : ℝ
  longitude : ℝ

structure RoutePreferences where
  profile : RouteProfile
  avoid_hills : Bool
  prefer_bike_lanes : Bool

structure RouteRequest where
  origin : Coordinate
  destination : Coordinate
  preferences : RoutePreferences

/-! #### Geometry helpers of the orchestrator -/

/-- `RoutingEngine._simple_distance`. -/
noncomputable def _simple_distance (lat1 lon1 lat2 lon2 : ℝ) : ℝ :=
  Real.sqrt ((lat2 - lat1) ^ 2 + (lon2 - lon1) ^ 2)

/-- Python `min(...)` over a non-empty list (`0` is never observed: every
call site guards non-emptiness). -/
noncomputable def listMin : List ℝ → ℝ
  | [] => 0
  | x :: xs => xs.foldl min x

/-- Python `max(...)` over a non-empty list. -/
noncomputable def listMax : List ℝ → ℝ
  | [] => 0
  | x :: xs => xs.foldl max x

open Classical in
/-- `RoutingEngine._score_waypoint`: larger is farther from risk zones. -/
noncomputable def _score_waypoint (waypoint : ℝ × ℝ) (zones : List Zone) : ℝ :=
  if zones = [] then 1.0
  else listMin (zones.map (fun z =>
    _simple_distance waypoint.1 waypoint.2 z.lat z.lon))

open Classical in
/-- `RoutingEngine._find_zones_on_path`. -/
noncomputable def _find_zones_on_path (origin dest : ℝ × ℝ)
    (zones : List Zone) : List Zone :=
  let o_lat := origin.1
  let o_lon := origin.2
  let d_lat := dest.1
  let d_lon := dest.2
  let min_lat := min o_lat d_lat - 0.01
  let max_lat := max o_lat d_lat + 0.01
  let min_lon := min o_lon d_lon - 0.01
  let max_lon := max o_lon d_lon + 0.01
  zones.filter (fun z =>
    decide (min_lat ≤ z.lat ∧ z.lat ≤ max_lat ∧ min_lon ≤ z.lon ∧
      z.lon ≤ max_lon) &&
    (let d_oz := _simple_distance o_lat o_lon z.lat z.lon
     let d_zd := _simple_distance z.lat z.lon d_lat d_lon
     let d_od := _simple_distance o_lat o_lon d_lat d_lon
     decide (d_od > 0 ∧ (d_oz + d_zd) / d_od < 1.5)))

open Classical in
/-- The focused-exclusion fold (`radius = alert_radius * avoidance_factor
* 3.0`, budget 9500, 8-vertex polygons) that appears verbatim in stage 2.5
of `_calculate_safest_route`, in `_iterative_zone_avoidance` and in
`_try_waypoint_avoidance`. -/
noncomputable def focusedPolygons (avoidance_factor : ℝ) :
    List Zone → ℝ → List (List Coord)
  | [], _ => []
  | z :: zs, total_circ =>
    let radius := z.radius_meters * avoidance_factor * 3.0
    let circ := 2 * Real.pi * radius
    if total_circ + circ > 9500 then []
    else create_circular_polygon z.lon z.lat radius 8 ::
      focusedPolygons avoidance_factor zs (total_circ + circ)

/-! #### Request builders and response assembly -/

/-- `RoutingEngine._build_base_valhalla_request`. -/
def _build_base_valhalla_request (request : RouteRequest)
    (options : BicycleOptions) : VRequest :=
  { locations := [⟨request.origin.latitude, request.origin.longitude, "break"⟩,
      ⟨request.destination.latitude, request.destination.longitude, "break"⟩],
    costing_options := options,
    exclude_polygons := none,
    alternates := none }

/-- `RoutingEngine._build_waypoint_request` (fixed Hybrid 0.2/0.3/0.7
costing; callers pass `none` for a falsy `exclude_polygons`). -/
def _build_waypoint_request (request : RouteRequest) (waypoint : ℝ × ℝ)
    (exclude_polygons : Option (List (List Coord))) : VRequest :=
  { locations := [⟨request.origin.latitude, request.origin.longitude, "break"⟩,
      ⟨waypoint.1, waypoint.2, "through"⟩,
      ⟨request.destination.latitude, request.destination.longitude, "break"⟩],
    costing_options := ⟨"Hybrid", 0.2, 0.3, 0.7, none⟩,
    exclude_polygons := exclude_polygons,
    alternates := none }

/-- `RoutingEngine._build_multi_waypoint_request` (fixed Hybrid
0.3/0.3/0.6 costing). -/
def _build_multi_waypoint_request (request : RouteRequest)
    (waypoints : List (ℝ × ℝ))
    (exclude_polygons : Option (List (List Coord))) : VRequest :=
  { locations := ⟨request.origin.latitude, request.origin.longitude, "break"⟩ ::
      (waypoints.map (fun wp => (⟨wp.1, wp.2, "through"⟩ : VLocation))) ++
      [⟨request.destination.latitude, request.destination.longitude, "break"⟩],
    costing_options := ⟨"Hybrid", 0.3, 0.3, 0.6, none⟩,
    exclude_polygons := exclude_polygons,
    alternates := none }

/-- Python `l[::step]` for a positive step. -/
def pySliceStep (l : List α) (step : ℕ) : List α :=
  (l.enum.filter (fun p => p.1 % step = 0)).map Prod.snd

open Classical in
/-- `RoutingEngine._calculate_elevation_stats`: returns
`(gain, loss, max_grade_percent)`. -/
noncomputable def _calculate_elevation_stats (elevations : List ℝ)
    (interval : ℝ) : ℝ × ℝ × ℝ :=
  if elevations.length < 2 then (0, 0, 0)
  else
    (elevations.zip elevations.tail).foldl (fun acc p =>
      let diff := p.2 - p.1
      let acc1 : ℝ × ℝ × ℝ :=
        if diff > 0 then (acc.1 + diff, acc.2.1, acc.2.2)
        else (acc.1, acc.2.1 + |diff|, acc.2.2)
      if interval > 0 then (acc1.1, acc1.2.1, max acc1.2.2 (|diff| / interval * 100))
      else acc1) (0, 0, 0)

open Classical in
/-- `RoutingEngine._get_accurate_bike_lane_percentage`: the
`/trace_attributes` fallback.  Only the percentage is modelled (the edge
stats dict is read by no caller). -/
noncomputable def _get_accurate_bike_lane_percentage
    (coordinates : List Coord) (st : OrState) : ℝ × OrState :=
  if coordinates.length < 2 then (0.0, st)
  else
    let sampled_coords :=
      if coordinates.length > 100 then
        let step := coordinates.length / 100
        let s := pySliceStep coordinates step
        if s.getLast? = coordinates.getLast? then s
        else s ++ coordinates.getLast?.toList
      else coordinates
    let r := takeReply st (.trace sampled_coords)
    match r.1 with
    | .err => (0.0, r.2)
    | .failure => (0.0, r.2)
    | .success body =>
      let edges := body.edges
      if edges = [] then (0.0, r.2)
      else
        let total_distance := (edges.map (fun e => e.length * 1000)).sum
        let bike_lane_distance := (edges.map (fun e =>
          if e.cycle_lane = "separated" ∨ e.cycle_lane = "dedicated" ∨
              e.cycle_lane = "shared" then e.length * 1000
          else if e.use = "cycleway" ∨ e.use = "path" ∨ e.use = "footway" ∨
              e.use = "pedestrian" then e.length * 1000
          else 0)).sum
        if total_distance = 0 then (0.0, r.2)
        else (bike_lane_distance / total_distance * 100, r.2)

/-- Decode one leg's shape into `[lon, lat]` real pairs
(`self._decode_polyline(shape)` at the default precision 6). -/
noncomputable def legCoords (leg : VLeg) : Option (List Coord) :=
  (_decode_polyline leg.shape 6).map (fun l =>
    l.map (fun q => ((q.1 : ℝ), (q.2 : ℝ))))

/-- Decode every leg (a malformed shape raises `IndexError`). -/
noncomputable def decodeAllLegs : List VLeg → Option (List (List Coord))
  | [] => some []
  | leg :: rest =>
    match legCoords leg, decodeAllLegs rest with
    | some c, some cs => some (c :: cs)
    | _, _ => none

open Classical in
/-- `RoutingEngine._parse_valhalla_response`. -/
noncomputable def _parse_valhalla_response (ext : Ext) (response : VResp)
    (st : OrState) : Except PyErr RouteResponse × OrState :=
  match response.trip with
  | none => (.error .valueErr, st)
  | some trip =>
    if trip.legs = [] then (.error .valueErr, st)
    else
      match decodeAllLegs trip.legs with
      | none => (.error .indexErr, st)
      | some legCoordLists =>
        let all_coordinates := legCoordLists.join
        let all_elevations := (trip.legs.map VLeg.elevation).join
        let elevation_interval :=
          trip.legs.foldl (fun _ leg => leg.elevation_interval.getD 30) 30
        let parsed_legs := (legCoordLists.zip trip.legs).map (fun p =>
          RouteLeg.mk p.1 (pyInt (p.2.summary.length * 1000))
            (pyInt p.2.summary.time))
        let stats := _calculate_elevation_stats all_elevations elevation_interval
        let route_distance := trip.summary.length * 1000
        let bike0 := calculate_bike_lane_percentage ext.laneDist all_coordinates 25
        let bs :=
          if bike0 = 0 ∧ route_distance > 0 then
            let fb := _get_accurate_bike_lane_percentage all_coordinates st
            (if fb.1 > 0 then fb.1 else bike0, fb.2)
          else (bike0, st)
        match getRiskZonesE ext with
        | .error e => (.error e, bs.2)
        | .ok risk_zones_data =>
          let rs :=
            if risk_zones_data ≠ [] ∧ all_coordinates ≠ [] then
              calculate_route_risk_score all_coordinates risk_zones_data 0.25
            else (0.0, 0, [])
          let valhalla_duration := pyInt trip.summary.time
          let valhalla_duration :=
            if valhalla_duration = 0 ∧ route_distance > 0 then
              pyInt (route_distance / 4.17)
            else valhalla_duration
          let route_summary : RouteSummary :=
            { distance_meters := pyInt route_distance,
              duration_seconds := valhalla_duration,
              elevation_gain_meters := pyInt stats.1,
              elevation_loss_meters := pyInt stats.2.1,
              max_grade_percent := pyRound 1 stats.2.2,
              bike_lane_percentage := pyRound 1 bs.1,
              risk_score := pyRound 2 rs.1 }
          let high_severity_count :=
            if rs.2.2 = [] then 0
            else (rs.2.2.map (fun zid =>
              (risk_zones_data.filter (fun z =>
                decide (z.id = zid ∧ (z.severity = "HIGH" ∨
                  z.severity = "CRITICAL")))).length)).sum
          let valid_zone_uuids := (rs.2.2.take 10).filter ext.isUUID
          (.ok { geometry := all_coordinates,
                 summary := route_summary,
                 legs := parsed_legs,
                 risk_analysis := ⟨rs.2.1, high_severity_count, valid_zone_uuids⟩,
                 warnings := [] }, bs.2)

/-! #### Costing-option tables (verbatim from the source) -/

/-- `route_options` in `_calculate_safest_route`. -/
noncomputable def safest_route_options : List BicycleOptions :=
  [⟨"Road", 0.5, 0.3, 0.5, none⟩,
   ⟨"Hybrid", 0.4, 0.4, 0.6, none⟩,
   ⟨"Cross", 0.6, 0.5, 0.4, none⟩,
   ⟨"Hybrid", 0.2, 0.3, 0.7, none⟩,
   ⟨"Road", 0.3, 0.2, 0.8, none⟩]

/-- `shortest_opts` in `_calculate_safest_route` (single-batch case). -/
noncomputable def shortest_opts : BicycleOptions :=
  ⟨"Road", 0.3, 0.2, 0.5, some true⟩

/-- `route_options` in `_calculate_fastest_route`. -/
noncomputable def fastest_route_options : List BicycleOptions :=
  [⟨"Road", 0.5, 0.3, 0.5, none⟩,
   ⟨"Cross", 0.6, 0.5, 0.4, none⟩,
   ⟨"Road", 0.8, 0.6, 0.3, none⟩,
   ⟨"Hybrid", 0.5, 0.4, 0.5, none⟩]

/-- `bike_lane_options` in `_calculate_bike_lane_preferred_route`. -/
noncomputable def bike_lane_options : List BicycleOptions :=
  [⟨"Hybrid", 0.0, 0.3, 0.8, none⟩,
   ⟨"Road", 0.1, 0.3, 0.7, none⟩,
   ⟨"Hybrid", 0.2, 0.4, 0.6, none⟩,
   ⟨"Cross", 0.3, 0.4, 0.6, none⟩]

/-! #### Basic and fastest pipelines -/

/-- `RoutingEngine._calculate_basic_safest`: one un-excluded engine call;
transport errors and non-2xx responses propagate
(`response.raise_for_status()`). -/
noncomputable def _calculate_basic_safest (ext : Ext) (request : RouteRequest)
    (st : OrState) : Except PyErr RouteResponse × OrState :=
  let req := _build_base_valhalla_request request ⟨"Road", 0.5, 0.3, 0.6, some false⟩
  let r := takeReply st (.route req)
  match r.1 with
  | .err => (.error .connectErr, r.2)
  | .failure => (.error .httpStatusErr, r.2)
  | .success body => _parse_valhalla_response ext body r.2

/-- The running-best update of `_calculate_fastest_route`
(`if route.summary.duration_seconds < best_duration`). -/
def updateBest (best : Option (RouteResponse × ℤ)) (route : RouteResponse) :
    Option (RouteResponse × ℤ) :=
  match best with
  | none => some (route, route.summary.duration_seconds)
  | some b =>
    if route.summary.duration_seconds < b.2 then
      some (route, route.summary.duration_seconds)
    else best

open Classical in
/-- The candidate loop of `_calculate_fastest_route`: every exception in an
iteration is caught and the loop continues. -/
noncomputable def fastestLoop (ext : Ext) (request : RouteRequest) :
    List BicycleOptions → Option (RouteResponse × ℤ) → OrState →
    Option (RouteResponse × ℤ) × OrState
  | [], best, st => (best, st)
  | opt :: rest, best, st =>
    let r := takeReply st (.route (_build_base_valhalla_request request opt))
    match r.1 with
    | .err => fastestLoop ext request rest best r.2
    | .failure => fastestLoop ext request rest best r.2
    | .success body =>
      match _parse_valhalla_response ext body r.2 with
      | (.error _, st2) => fastestLoop ext request rest best st2
      | (.ok route, st2) => fastestLoop ext request rest (updateBest best route) st2

open Classical in
/-- The alternates loop at the end of `_calculate_fastest_route`
(per-alternate exceptions are caught and skipped). -/
noncomputable def fastestAltFold (ext : Ext) :
    List VResp → Option (RouteResponse × ℤ) → OrState →
    Option (RouteResponse × ℤ) × OrState
  | [], best, st => (best, st)
  | alt :: rest, best, st =>
    match _parse_valhalla_response ext alt st with
    | (.error _, st2) => fastestAltFold ext rest best st2
    | (.ok route, st2) => fastestAltFold ext rest (updateBest best route) st2

open Classical in
/-- The `alternates=2` block of `_calculate_fastest_route`: a failure
anywhere in the block abandons the rest of the block but keeps the best
found so far. -/
noncomputable def fastestAlternates (ext : Ext) (request : RouteRequest)
    (best : Option (RouteResponse × ℤ)) (st : OrState) :
    Option (RouteResponse × ℤ) × OrState :=
  let alt_req := { _build_base_valhalla_request request
    ⟨"Road", 0.5, 0.3, 0.5, none⟩ with alternates := some 2 }
  let r := takeReply st (.route alt_req)
  match r.1 with
  | .err => (best, r.2)
  | .failure => (best, r.2)
  | .success body =>
    match _parse_valhalla_response ext body r.2 with
    | (.error _, st2) => (best, st2)
    | (.ok route, st2) =>
      fastestAltFold ext body.alternates (updateBest best route) st2

/-- `RoutingEngine._calculate_fastest_route`. -/
noncomputable def _calculate_fastest_route (ext : Ext) (request : RouteRequest)
    (st : OrState) : Except PyErr RouteResponse × OrState :=
  let l := fastestLoop ext request fastest_route_options none st
  let a := fastestAlternates ext request l.1 l.2
  match a.1 with
  | some b => (.ok b.1, a.2)
  | none => _calculate_basic_safest ext request a.2

/-! #### Safest pipeline (`_calculate_safest_route` and its stages) -/

/-- A `valid_routes` entry `(route, distance, risk_score)`. -/
abbrev ValidEntry := RouteResponse × ℤ × ℝ

/-- A `fallback_routes` entry `(route, zone_passes, risk_score, distance)`. -/
abbrev FallbackEntry := RouteResponse × ℕ × ℝ × ℤ

/-- The `all_candidates` request list of `_calculate_safest_route`: per
batch the five costing options, then an `alternates=2` request with the
first option; a `shortest=True` request when there is exactly one batch. -/
noncomputable def stage1Candidates (request : RouteRequest)
    (batches : List (List (List Coord))) : List VRequest :=
  (batches.map (fun batch =>
    safest_route_options.map (fun opt =>
      { _build_base_valhalla_request request opt with
        exclude_polygons := some batch }) ++
    [{ _build_base_valhalla_request request ⟨"Road", 0.5, 0.3, 0.5, none⟩ with
       alternates := some 2, exclude_polygons := some batch }])).flatten ++
  (if batches.length = 1 then
    [{ _build_base_valhalla_request request shortest_opts with
       exclude_polygons := some (batches.headD []) }]
   else [])

open Classical in
/-- The per-trip body of the stage-1 candidate evaluation (inner
`try/except: continue`). -/
noncomputable def stage1Trips (ext : Ext) (all_zones risk_zones_data : List Zone)
    (min_severity : String) :
    List VResp → List ValidEntry → List FallbackEntry → OrState →
    (List ValidEntry × List FallbackEntry) × OrState
  | [], vs, fs, st => ((vs, fs), st)
  | trip :: rest, vs, fs, st =>
    match _parse_valhalla_response ext trip st with
    | (.error _, st2) =>
      stage1Trips ext all_zones risk_zones_data min_severity rest vs fs st2
    | (.ok route, st2) =>
      if route.geometry = [] then
        stage1Trips ext all_zones risk_zones_data min_severity rest vs fs st2
      else
        let v := validate_route_against_zones route.geometry all_zones
          min_severity (avoidance_factor min_severity)
        let rsc := calculate_route_risk_score route.geometry risk_zones_data 0.25
        let distance := route.summary.distance_meters
        if v.1 then
          stage1Trips ext all_zones risk_zones_data min_severity rest
            (vs ++ [(route, distance, rsc.1)]) fs st2
        else
          stage1Trips ext all_zones risk_zones_data min_severity rest vs
            (fs ++ [(route, rsc.2.1, rsc.1, distance)]) st2

open Classical in
/-- The stage-1 candidate loop (outer `try/except: continue`). -/
noncomputable def stage1Loop (ext : Ext) (all_zones risk_zones_data : List Zone)
    (min_severity : String) :
    List VRequest → List ValidEntry → List FallbackEntry → OrState →
    (List ValidEntry × List FallbackEntry) × OrState
  | [], vs, fs, st => ((vs, fs), st)
  | req :: rest, vs, fs, st =>
    let r := takeReply st (.route req)
    match r.1 with
    | .err => stage1Loop ext all_zones risk_zones_data min_severity rest vs fs r.2
    | .failure => stage1Loop ext all_zones risk_zones_data min_severity rest vs fs r.2
    | .success body =>
      let e := stage1Trips ext all_zones risk_zones_data min_severity
        (body :: body.alternates) vs fs r.2
      stage1Loop ext all_zones risk_zones_data min_severity rest e.1.1 e.1.2 e.2

open Classical in
/-- Per-trip body of the stage-2.5 focused re-routing loop.  `f0passes` is
`fallback_routes[0][1]`: appends go to the end of the list, so its head is
fixed throughout the stage. -/
noncomputable def stage25Trips (ext : Ext) (all_zones : List Zone)
    (min_severity : String) (f0passes : ℕ) :
    List VResp → List ValidEntry → List FallbackEntry → OrState →
    (List ValidEntry × List FallbackEntry) × OrState
  | [], vs, fs, st => ((vs, fs), st)
  | trip :: rest, vs, fs, st =>
    match _parse_valhalla_response ext trip st with
    | (.error _, st2) =>
      stage25Trips ext all_zones min_severity f0passes rest vs fs st2
    | (.ok route, st2) =>
      if route.geometry = [] then
        stage25Trips ext all_zones min_severity f0passes rest vs fs st2
      else
        let v := validate_route_against_zones route.geometry all_zones
          min_severity (avoidance_factor min_severity)
        if v.1 then
          stage25Trips ext all_zones min_severity f0passes rest
            (vs ++ [(route, route.summary.distance_meters, 0)]) fs st2
        else if v.2.1 < f0passes then
          stage25Trips ext all_zones min_severity f0passes rest vs
            (fs ++ [(route, v.2.1, 0, route.summary.distance_meters)]) st2
        else
          stage25Trips ext all_zones min_severity f0passes rest vs fs st2

open Classical in
/-- The stage-2.5 loop over the five costing options. -/
noncomputable def stage25OptLoop (ext : Ext) (request : RouteRequest)
    (all_zones : List Zone) (min_severity : String) (f0passes : ℕ)
    (focused : List (List Coord)) :
    List BicycleOptions → List ValidEntry → List FallbackEntry → OrState →
    (List ValidEntry × List FallbackEntry) × OrState
  | [], vs, fs, st => ((vs, fs), st)
  | opt :: rest, vs, fs, st =>
    let req := { _build_base_valhalla_request request opt with
      exclude_polygons := some focused }
    let r := takeReply st (.route req)
    match r.1 with
    | .err =>
      stage25OptLoop ext request all_zones min_severity f0passes focused rest vs fs r.2
    | .failure =>
      stage25OptLoop ext request all_zones min_severity f0passes focused rest vs fs r.2
    | .success body =>
      let e := stage25Trips ext all_zones min_severity f0passes
        (body :: body.alternates) vs fs r.2
      stage25OptLoop ext request all_zones min_severity f0passes focused rest
        e.1.1 e.1.2 e.2

open Classical in
/-- The stage-2.5 `alternates=2` block (only valid routes are kept). -/
noncomputable def stage25AltTrips (ext : Ext) (all_zones : List Zone)
    (min_severity : String) :
    List VResp → List ValidEntry → OrState → List ValidEntry × OrState
  | [], vs, st => (vs, st)
  | trip :: rest, vs, st =>
    match _parse_valhalla_response ext trip st with
    | (.error _, st2) => stage25AltTrips ext all_zones min_severity rest vs st2
    | (.ok route, st2) =>
      if route.geometry = [] then
        stage25AltTrips ext all_zones min_severity rest vs st2
      else if (validate_route_against_zones route.geometry all_zones
          min_severity (avoidance_factor min_severity)).1 then
        stage25AltTrips ext all_zones min_severity rest
          (vs ++ [(route, route.summary.distance_meters, 0)]) st2
      else
        stage25AltTrips ext all_zones min_severity rest vs st2

open Classical in
/-- Stage 2.5 of `_calculate_safest_route`: focused re-routing targeting
the zones violated by the fallback candidates (entered only when there is
no valid route and at least one fallback). -/
noncomputable def stage25 (ext : Ext) (request : RouteRequest)
    (all_zones risk_zones_data : List Zone) (min_severity : String)
    (fs : List FallbackEntry) (st : OrState) :
    (List ValidEntry × List FallbackEntry) × OrState :=
  let af := avoidance_factor min_severity
  let violated_ids := (fs.map (fun fb =>
    (validate_route_against_zones fb.1.geometry all_zones min_severity af).2.2.map
      Violation.zone_id)).flatten
  if violated_ids = [] then (([], fs), st)
  else
    let violated_zones := risk_zones_data.filter
      (fun z => violated_ids.contains z.id)
    let focused := focusedPolygons af violated_zones 0
    if focused = [] then (([], fs), st)
    else
      match fs with
      | [] => (([], []), st)
      | f0 :: _ =>
        let o := stage25OptLoop ext request all_zones min_severity f0.2.1 focused
          safest_route_options [] fs st
        let alt_req := { _build_base_valhalla_request request
          ⟨"Road", 0.5, 0.3, 0.5, none⟩ with
          alternates := some 2, exclude_polygons := some focused }
        let r := takeReply o.2 (.route alt_req)
        match r.1 with
        | .err => (o.1, r.2)
        | .failure => (o.1, r.2)
        | .success body =>
          let a := stage25AltTrips ext all_zones min_severity
            (body :: body.alternates) o.1.1 r.2
          ((a.1, o.1.2), a.2)

/-- `violation_count >= best_violations` with `best_violations` possibly
`float('inf')` (`none`); also `best_passes <= 1` in
`_try_waypoint_avoidance`, where `inf ≤ 1` is false. -/
def bvStop (best_violations : Option ℕ) (c : ℕ) : Prop :=
  match best_violations with
  | some b => b ≤ c
  | none => False

/-- `violation_count < best_passes` with `best_passes` possibly
`float('inf')` (`none`); also `best_passes > 0` where `inf > 0` is true. -/
def bpImproves (bp : Option ℕ) (c : ℕ) : Prop :=
  match bp with
  | none => True
  | some b => c < b

/-- Stable comparison used to sort `fallback_routes` by
`(zone_passes, risk_score)`. -/
noncomputable def fbLE (a b : FallbackEntry) : Bool :=
  decide (a.2.1 < b.2.1 ∨ (a.2.1 = b.2.1 ∧ a.2.2.1 ≤ b.2.2.1))

/-- Python's running-minimum search for the route point nearest a zone
center (first index wins ties). -/
noncomputable def nearestIdx (coords : List Coord) (z_lat z_lon : ℝ) : ℕ :=
  (coords.enum.foldl (fun acc p =>
    let dist := _simple_distance z_lat z_lon p.2.2 p.2.1
    match acc.2 with
    | none => (p.1, some dist)
    | some d => if dist < d then (p.1, some dist) else acc)
    ((0 : ℕ), (none : Option ℝ))).1

open Classical in
/-- One avoidance waypoint of `_iterative_zone_avoidance`: perpendicular
offset at the route point nearest the zone, the side scored farther from
risk zones winning. -/
noncomputable def iterWaypoint (coords : List Coord) (zone : Zone)
    (iteration : ℕ) (risk_zones_data : List Zone) : ℝ × ℝ :=
  let idx := nearestIdx coords zone.lat zone.lon
  let dir : ℝ × ℝ :=
    if 0 < idx ∧ idx < coords.length - 1 then
      ((coords.getD (idx + 1) (0, 0)).2 - (coords.getD (idx - 1) (0, 0)).2,
       (coords.getD (idx + 1) (0, 0)).1 - (coords.getD (idx - 1) (0, 0)).1)
    else if 0 < idx then
      ((coords.getD idx (0, 0)).2 - (coords.getD (idx - 1) (0, 0)).2,
       (coords.getD idx (0, 0)).1 - (coords.getD (idx - 1) (0, 0)).1)
    else
      ((coords.getD (min 1 (coords.length - 1)) (0, 0)).2 -
         (coords.getD 0 (0, 0)).2,
       (coords.getD (min 1 (coords.length - 1)) (0, 0)).1 -
         (coords.getD 0 (0, 0)).1)
  let rmag := Real.sqrt (dir.1 ^ 2 + dir.2 ^ 2)
  let perp : ℝ × ℝ := if rmag > 0 then (-dir.2 / rmag, dir.1 / rmag) else (0, 1)
  let offset_deg := zone.radius_meters * (2.5 + (iteration : ℝ)) / 111000
  let wp1 := (zone.lat + perp.1 * offset_deg, zone.lon + perp.2 * offset_deg)
  let wp2 := (zone.lat - perp.1 * offset_deg, zone.lon - perp.2 * offset_deg)
  if _score_waypoint wp1 risk_zones_data > _score_waypoint wp2 risk_zones_data
  then wp1 else wp2

open Classical in
/-- `RoutingEngine._iterative_zone_avoidance` (fuel = remaining
iterations, `iteration` = current index, `best_violations = none` encodes
`float('inf')`). -/
noncomputable def _iterative_zone_avoidance (ext : Ext) (request : RouteRequest)
    (risk_zones_data all_zones : List Zone) (min_severity : String) :
    ℕ → ℕ → RouteResponse → Option ℕ → OrState → Option RouteResponse × OrState
  | 0, _, _, _, st => (none, st)
  | fuel + 1, iteration, best_route, best_violations, st =>
    let af := avoidance_factor min_severity
    let v := validate_route_against_zones best_route.geometry all_zones
      min_severity af
    if v.1 then (some best_route, st)
    else if bvStop best_violations v.2.1 then (none, st)
    else
      let bv := v.2.1
      let violated_ids := v.2.2.map Violation.zone_id
      let violated_zones := risk_zones_data.filter
        (fun z => violated_ids.contains z.id)
      if violated_zones = [] then (none, st)
      else
        let focused := focusedPolygons af violated_zones 0
        let wps := violated_zones.map
          (fun z => iterWaypoint best_route.geometry z iteration risk_zones_data)
        let wp_request := _build_multi_waypoint_request request wps
          (if focused = [] then none else some focused)
        let r := takeReply st (.route wp_request)
        match r.1 with
        | .err =>
          _iterative_zone_avoidance ext request risk_zones_data all_zones
            min_severity fuel (iteration + 1) best_route (some bv) r.2
        | .failure =>
          _iterative_zone_avoidance ext request risk_zones_data all_zones
            min_severity fuel (iteration + 1) best_route (some bv) r.2
        | .success body =>
          match _parse_valhalla_response ext body r.2 with
          | (.error _, st2) =>
            _iterative_zone_avoidance ext request risk_zones_data all_zones
              min_severity fuel (iteration + 1) best_route (some bv) st2
          | (.ok route, st2) =>
            if route.geometry = [] then
              _iterative_zone_avoidance ext request risk_zones_data all_zones
                min_severity fuel (iteration + 1) best_route (some bv) st2
            else
              let vn := validate_route_against_zones route.geometry all_zones
                min_severity af
              if vn.1 then (some route, st2)
              else if vn.2.1 < bv then
                _iterative_zone_avoidance ext request risk_zones_data all_zones
                  min_severity fuel (iteration + 1) route (some vn.2.1) st2
              else
                _iterative_zone_avoidance ext request risk_zones_data all_zones
                  min_severity fuel (iteration + 1) best_route (some bv) st2

open Classical in
/-- `RoutingEngine._generate_avoidance_waypoints`. -/
noncomputable def _generate_avoidance_waypoints (origin dest : ℝ × ℝ)
    (cluster_lat cluster_lon : ℝ) (all_zones : List Zone) : List (ℝ × ℝ) :=
  let dir_lat := dest.1 - origin.1
  let dir_lon := dest.2 - origin.2
  let p1 : ℝ × ℝ := (-dir_lon, dir_lat)
  let p2 : ℝ × ℝ := (dir_lon, -dir_lat)
  let mag := Real.sqrt (p1.1 ^ 2 + p1.2 ^ 2)
  let perp1 := if mag > 0 then (p1.1 / mag, p1.2 / mag) else p1
  let perp2 := if mag > 0 then (p2.1 / mag, p2.2 / mag) else p2
  let cluster_wps := ([0.01, 0.02, 0.03, 0.04] : List ℝ).map (fun offset =>
    let wp1 := (cluster_lat + perp1.1 * offset, cluster_lon + perp1.2 * offset)
    let wp2 := (cluster_lat + perp2.1 * offset, cluster_lon + perp2.2 * offset)
    if _score_waypoint wp1 all_zones > _score_waypoint wp2 all_zones
    then [wp1, wp2] else [wp2, wp1])
  let mid_lat := (origin.1 + dest.1) / 2
  let mid_lon := (origin.2 + dest.2) / 2
  let mid_wps := ([0.015, 0.03] : List ℝ).map (fun offset =>
    let wp1 := (mid_lat + perp1.1 * offset, mid_lon + perp1.2 * offset)
    let wp2 := (mid_lat + perp2.1 * offset, mid_lon + perp2.2 * offset)
    if _score_waypoint wp1 all_zones > _score_waypoint wp2 all_zones
    then wp1 else wp2)
  let extreme_wps := ([0.05, 0.06] : List ℝ).map (fun offset =>
    let wp1 := (cluster_lat + perp1.1 * offset, cluster_lon + perp1.2 * offset)
    let wp2 := (cluster_lat + perp2.1 * offset, cluster_lon + perp2.2 * offset)
    if _score_waypoint wp1 all_zones > _score_waypoint wp2 all_zones
    then wp1 else wp2)
  (cluster_wps.flatten ++ mid_wps ++ extreme_wps).take 12

/-- Outcome of a waypoint-attempt loop: a clean route returned early, or
exhaustion with the running best and its violation count
(`none` = `float('inf')`). -/
inductive WpOut where
  | found (route : RouteResponse)
  | exhausted (best : Option RouteResponse) (best_passes : Option ℕ)

open Classical in
/-- Stage 1 of `_try_waypoint_avoidance`: the single-waypoint loop. -/
noncomputable def wpLoop (ext : Ext) (request : RouteRequest)
    (all_zones : List Zone) (min_severity : String)
    (excl : Option (List (List Coord))) :
    List (ℝ × ℝ) → Option RouteResponse → Option ℕ → OrState → WpOut × OrState
  | [], best, bp, st => (.exhausted best bp, st)
  | wp :: rest, best, bp, st =>
    let r := takeReply st (.route (_build_waypoint_request request wp excl))
    match r.1 with
    | .err => wpLoop ext request all_zones min_severity excl rest best bp r.2
    | .failure => wpLoop ext request all_zones min_severity excl rest best bp r.2
    | .success body =>
      match _parse_valhalla_response ext body r.2 with
      | (.error _, st2) =>
        wpLoop ext request all_zones min_severity excl rest best bp st2
      | (.ok route, st2) =>
        if route.geometry = [] then
          wpLoop ext request all_zones min_severity excl rest best bp st2
        else
          let v := validate_route_against_zones route.geometry all_zones
            min_severity (avoidance_factor min_severity)
          if v.1 then (.found route, st2)
          else if bpImproves bp v.2.1 then
            wpLoop ext request all_zones min_severity excl rest
              (some route) (some v.2.1) st2
          else
            wpLoop ext request all_zones min_severity excl rest best bp st2

open Classical in
/-- Stage 2 of `_try_waypoint_avoidance`: multi-waypoint chains over four
attempts with growing multipliers. -/
noncomputable def chainLoop (ext : Ext) (request : RouteRequest)
    (risk_zones_data all_zones zones_on_path : List Zone)
    (min_severity : String) (perp : ℝ × ℝ)
    (excl : Option (List (List Coord))) :
    List ℕ → Option RouteResponse → Option ℕ → OrState → WpOut × OrState
  | [], best, bp, st => (.exhausted best bp, st)
  | attempt :: rest, best, bp, st =>
    let multiplier := 2.0 + (attempt : ℝ) * 1.5
    let chain := zones_on_path.map (fun z =>
      let offset_deg := z.radius_meters * multiplier / 111000
      let wp1 := (z.lat + perp.1 * offset_deg, z.lon + perp.2 * offset_deg)
      let wp2 := (z.lat - perp.1 * offset_deg, z.lon - perp.2 * offset_deg)
      if _score_waypoint wp1 risk_zones_data > _score_waypoint wp2 risk_zones_data
      then wp1 else wp2)
    let r := takeReply st (.route (_build_multi_waypoint_request request chain excl))
    match r.1 with
    | .err =>
      chainLoop ext request risk_zones_data all_zones zones_on_path min_severity
        perp excl rest best bp r.2
    | .failure =>
      chainLoop ext request risk_zones_data all_zones zones_on_path min_severity
        perp excl rest best bp r.2
    | .success body =>
      match _parse_valhalla_response ext body r.2 with
      | (.error _, st2) =>
        chainLoop ext request risk_zones_data all_zones zones_on_path min_severity
          perp excl rest best bp st2
      | (.ok route, st2) =>
        if route.geometry = [] then
          chainLoop ext request risk_zones_data all_zones zones_on_path
            min_severity perp excl rest best bp st2
        else
          let v := validate_route_against_zones route.geometry all_zones
            min_severity (avoidance_factor min_severity)
          if v.1 then (.found route, st2)
          else if bpImproves bp v.2.1 then
            chainLoop ext request risk_zones_data all_zones zones_on_path
              min_severity perp excl rest (some route) (some v.2.1) st2
          else
            chainLoop ext request risk_zones_data all_zones zones_on_path
              min_severity perp excl rest best bp st2

open Classical in
/-- `RoutingEngine._try_waypoint_avoidance`. -/
noncomputable def _try_waypoint_avoidance (ext : Ext) (request : RouteRequest)
    (risk_zones_data all_zones : List Zone) (min_severity : String)
    (st : OrState) : Option RouteResponse × OrState :=
  let origin := (request.origin.latitude, request.origin.longitude)
  let dest := (request.destination.latitude, request.destination.longitude)
  let zones_on_path := _find_zones_on_path origin dest risk_zones_data
  if zones_on_path = [] then (none, st)
  else
    let avg_lat := (zones_on_path.map Zone.lat).sum / zones_on_path.length
    let avg_lon := (zones_on_path.map Zone.lon).sum / zones_on_path.length
    let af := avoidance_factor min_severity
    let path_exclude := focusedPolygons af zones_on_path 0
    let max_zone_radius := listMax (zones_on_path.map Zone.radius_meters)
    let base_offset := max_zone_radius * 2 / 111000
    let wps0 := _generate_avoidance_waypoints origin dest avg_lat avg_lon
      risk_zones_data
    let dir_lat := dest.1 - origin.1
    let dir_lon := dest.2 - origin.2
    let mag := Real.sqrt (dir_lat ^ 2 + dir_lon ^ 2)
    let perp : ℝ × ℝ := if mag > 0 then (-dir_lon / mag, dir_lat / mag) else (0, 1)
    let extra := ([2.0, 3.0, 4.0, 5.0] : List ℝ).map (fun mult =>
      let offset := base_offset * mult
      let wp1 := (avg_lat + perp.1 * offset, avg_lon + perp.2 * offset)
      let wp2 := (avg_lat - perp.1 * offset, avg_lon - perp.2 * offset)
      if _score_waypoint wp1 risk_zones_data > _score_waypoint wp2 risk_zones_data
      then wp1 else wp2)
    let waypoints := wps0 ++ extra
    let excl := if path_exclude = [] then none else some path_exclude
    let s1 := wpLoop ext request all_zones min_severity excl
      (waypoints.take 16) none none st
    match s1.1 with
    | .found route => (some route, s1.2)
    | .exhausted best bp =>
      let s2 :=
        if bpImproves bp 0 ∧ zones_on_path.length ≤ 5 then
          chainLoop ext request risk_zones_data all_zones zones_on_path
            min_severity perp excl [0, 1, 2, 3] best bp s1.2
        else (WpOut.exhausted best bp, s1.2)
      match s2.1 with
      | .found route => (some route, s2.2)
      | .exhausted best2 bp2 =>
        (if min_severity = "HIGH" ∧ best2.isSome ∧ bvStop bp2 1
         then best2 else none, s2.2)

open Classical in
/-- Stages 1–2.5 of `_calculate_safest_route`: candidate generation,
evaluation, and the conditional focused re-routing. -/
noncomputable def stage12 (ext : Ext) (request : RouteRequest)
    (all_zones risk_zones_data : List Zone) (min_severity : String)
    (st : OrState) : (List ValidEntry × List FallbackEntry) × OrState :=
  let polygon_batches := get_exclude_polygon_batches all_zones 1.5
    min_severity 9500
  let e1 := stage1Loop ext all_zones risk_zones_data min_severity
    (stage1Candidates request polygon_batches) [] [] st
  if e1.1.1 = [] ∧ e1.1.2 ≠ [] then
    stage25 ext request all_zones risk_zones_data min_severity e1.1.2 e1.2
  else (e1.1, e1.2)

open Classical in
/-- `RoutingEngine._calculate_safest_route`: the full staged pipeline
(the second `get_risk_zones` call inside `get_exclude_polygon_batches`
sees the same outcome, the snapshot being fixed for the request). -/
noncomputable def _calculate_safest_route (ext : Ext) (request : RouteRequest)
    (min_severity : String) (st : OrState) :
    Except PyErr RouteResponse × OrState :=
  match getRiskZonesE ext with
  | .error e => (.error e, st)
  | .ok all_zones =>
    let risk_zones_data := filter_zones_by_severity all_zones min_severity
    if risk_zones_data = [] then _calculate_basic_safest ext request st
    else
      let s25 := stage12 ext request all_zones risk_zones_data min_severity st
      match (s25.1.1.mergeSort (fun a b => decide (a.2.1 ≤ b.2.1))) with
      | best :: _ => (.ok best.1, s25.2)
      | [] =>
        match s25.1.2.mergeSort fbLE with
        | [] =>
          let w := _try_waypoint_avoidance ext request risk_zones_data all_zones
            min_severity s25.2
          match w.1 with
          | some route => (.ok route, w.2)
          | none => _calculate_basic_safest ext request w.2
        | bf :: _ =>
          let it := _iterative_zone_avoidance ext request risk_zones_data
            all_zones min_severity 5 0 bf.1 none s25.2
          match it.1 with
          | some route => (.ok route, it.2)
          | none =>
            let w := _try_waypoint_avoidance ext request risk_zones_data
              all_zones min_severity it.2
            match w.1 with
            | some route => (.ok route, w.2)
            | none => (.ok bf.1, w.2)

/-! #### Bike-lane-preferred pipeline -/

/-- One candidate dict of `_calculate_bike_lane_preferred_route`. -/
structure BLCandidate where
  route : RouteResponse
  is_valid : Bool
  violations : ℕ
  bike_pct : ℝ
  distance : ℤ
  duration : ℤ

open Classical in
/-- The per-option loop of `_calculate_bike_lane_preferred_route`. -/
noncomputable def blOptLoop (ext : Ext) (request : RouteRequest)
    (all_zones : List Zone) (excl : Option (List (List Coord))) :
    List BicycleOptions → List BLCandidate → OrState →
    List BLCandidate × OrState
  | [], cs, st => (cs, st)
  | opt :: rest, cs, st =>
    let req := { _build_base_valhalla_request request opt with
      exclude_polygons := excl }
    let r := takeReply st (.route req)
    match r.1 with
    | .err => blOptLoop ext request all_zones excl rest cs r.2
    | .failure => blOptLoop ext request all_zones excl rest cs r.2
    | .success body =>
      match _parse_valhalla_response ext body r.2 with
      | (.error _, st2) => blOptLoop ext request all_zones excl rest cs st2
      | (.ok route, st2) =>
        if route.geometry = [] then
          blOptLoop ext request all_zones excl rest cs st2
        else
          let v := validate_route_against_zones route.geometry all_zones
            "LOW" 0.25
          blOptLoop ext request all_zones excl rest
            (cs ++ [⟨route, v.1, v.2.1, route.summary.bike_lane_percentage,
              route.summary.distance_meters, route.summary.duration_seconds⟩]) st2

open Classical in
/-- The `alternates=2` block of `_calculate_bike_lane_preferred_route`. -/
noncomputable def blAltTrips (ext : Ext) (all_zones : List Zone) :
    List VResp → List BLCandidate → OrState → List BLCandidate × OrState
  | [], cs, st => (cs, st)
  | trip :: rest, cs, st =>
    match _parse_valhalla_response ext trip st with
    | (.error _, st2) => blAltTrips ext all_zones rest cs st2
    | (.ok route, st2) =>
      if route.geometry = [] then blAltTrips ext all_zones rest cs st2
      else
        let v := validate_route_against_zones route.geometry all_zones
          "LOW" 0.25
        blAltTrips ext all_zones rest
          (cs ++ [⟨route, v.1, v.2.1, route.summary.bike_lane_percentage,
            route.summary.distance_meters, route.summary.duration_seconds⟩]) st2

/-- The distance-penalised bike-lane score of a candidate. -/
noncomputable def blScore (min_distance : ℝ) (c : BLCandidate) : ℝ :=
  let distance_ratio := if min_distance > 0 then (c.distance : ℝ) / min_distance
    else 1
  c.bike_pct - max 0 ((distance_ratio - 1) * 50)

open Classical in
/-- The candidate-collection phase of
`_calculate_bike_lane_preferred_route`: the four costing options, then the
`alternates=2` request. -/
noncomputable def blCandidates (ext : Ext) (request : RouteRequest)
    (all_zones : List Zone) (excl : Option (List (List Coord)))
    (st : OrState) : List BLCandidate × OrState :=
  let o := blOptLoop ext request all_zones excl bike_lane_options [] st
  let alt_req := { _build_base_valhalla_request request
    ⟨"Hybrid", 0.0, 0.3, 0.8, none⟩ with
    alternates := some 2, exclude_polygons := excl }
  let r := takeReply o.2 (.route alt_req)
  match r.1 with
  | .err => (o.1, r.2)
  | .failure => (o.1, r.2)
  | .success body => blAltTrips ext all_zones (body :: body.alternates) o.1 r.2

open Classical in
/-- `RoutingEngine._calculate_bike_lane_preferred_route`. -/
noncomputable def _calculate_bike_lane_preferred_route (ext : Ext)
    (request : RouteRequest) (st : OrState) :
    Except PyErr RouteResponse × OrState :=
  match getRiskZonesE ext with
  | .error e => (.error e, st)
  | .ok all_zones =>
    let polygon_batches := get_exclude_polygon_batches all_zones 1.5 "LOW" 9500
    let excl : Option (List (List Coord)) :=
      match polygon_batches with
      | [] => none
      | b :: _ => if b = [] then none else some b
    let afterAlt := blCandidates ext request all_zones excl st
    match afterAlt.1 with
    | [] => _calculate_safest_route ext request "LOW" afterAlt.2
    | c0 :: crest =>
      match (c0 :: crest).filter (fun c => c.is_valid) with
      | v0 :: vrest =>
        let min_distance := listMin ((v0 :: vrest).map (fun c => (c.distance : ℝ)))
        let best := vrest.foldl (fun acc c =>
          if blScore min_distance c > blScore min_distance acc then c else acc) v0
        (.ok best.route, afterAlt.2)
      | [] =>
        match (c0 :: crest).mergeSort (fun a b =>
          decide (a.violations < b.violations ∨
            (a.violations = b.violations ∧ b.bike_pct ≤ a.bike_pct))) with
        | best :: _ => (.ok best.route, afterAlt.2)
        | [] => (.error .indexErr, afterAlt.2)

/-! #### Profile dispatch and alternatives -/

/-- `RoutingEngine.calculate_route`: the profile dispatch.  `FASTEST` and
`SCENIC` both fall through to the fastest pipeline (engine.py line 91). -/
noncomputable def calculate_route (ext : Ext) (request : RouteRequest)
    (st : OrState) : Except PyErr RouteResponse × OrState :=
  if request.preferences.profile = RouteProfile.safest then
    (if request.preferences.prefer_bike_lanes then
      _calculate_bike_lane_preferred_route ext request st
    else _calculate_safest_route ext request "LOW" st)
  else if request.preferences.profile = RouteProfile.balanced then
    _calculate_safest_route ext request "HIGH" st
  else _calculate_fastest_route ext request st

/-- The dispatch target the spec prescribes for `SCENIC` (the avoidance
pipeline at `min_severity="LOW"`), for comparison with the source
dispatch. -/
noncomputable def spec_scenic_dispatch (ext : Ext) (request : RouteRequest)
    (st : OrState) : Except PyErr RouteResponse × OrState :=
  _calculate_safest_route ext request "LOW" st

/-- `request.model_copy()` with the profile replaced. -/
def setProfile (request : RouteRequest) (p : RouteProfile) : RouteRequest :=
  { request with preferences := { request.preferences with profile := p } }

/-- The per-profile loop of `calculate_alternatives`
(`except ValueError: continue`; any other exception propagates). -/
noncomputable def altLoop (ext : Ext) (request : RouteRequest) :
    List RouteProfile → List RouteResponse → OrState →
    Except PyErr (List RouteResponse) × OrState
  | [], routes, st => (.ok routes, st)
  | p :: rest, routes, st =>
    match calculate_route ext (setProfile request p) st with
    | (.ok route, st2) => altLoop ext request rest (routes ++ [route]) st2
    | (.error .valueErr, st2) => altLoop ext request rest routes st2
    | (.error e, st2) => (.error e, st2)

instance : Inhabited RouteResponse :=
  ⟨⟨[], ⟨0, 0, 0, 0, 0, 0, 0⟩, [], ⟨0, 0, []⟩, []⟩⟩

/-- One iteration of the post-computation swap loop of
`calculate_alternatives` (`fastest_idx = 2` fixed; `fastest_route` is
re-read from slot 2 after every swap). -/
def swapStep (rs : List RouteResponse) (i : ℕ) : List RouteResponse :=
  match rs[2]?, rs[i]? with
  | some f, some ri =>
    if i ≠ 2 ∧ ri.summary.duration_seconds < f.summary.duration_seconds then
      (rs.set 2 ri).set i f
    else rs
  | _, _ => rs

/-- The swap pass (runs only when at least three routes were produced). -/
def alternativesSwap (routes : List RouteResponse) : List RouteResponse :=
  if 3 ≤ routes.length then (List.range routes.length).foldl swapStep routes
  else routes

/-- `RoutingEngine.calculate_alternatives` at the default
`num_alternatives=3`. -/
noncomputable def calculate_alternatives (ext : Ext) (request : RouteRequest)
    (st : OrState) : Except PyErr (List RouteResponse) × OrState :=
  match altLoop ext request
    [RouteProfile.balanced, RouteProfile.safest, RouteProfile.fastest] [] st with
  | (.ok routes, st2) => (.ok (alternativesSwap routes), st2)
  | (.error e, st2) => (.error e, st2)

/-- One comparison step of Python's `min(..., key=f)` (first minimum
wins). -/
def argminStep (f : ℕ → ℤ) (acc : Option ℕ) (i : ℕ) : Option ℕ :=
  match acc with
  | none => some i
  | some j => if f i < f j then some i else acc

/-- Python's `min(range(len(routes)), key=f)`: first index with minimal
key. -/
def argminFold (f : ℕ → ℤ) (l : List ℕ) : Option ℕ :=
  l.foldl (argminStep f) none

/-- `fastest_idx` as computed by the `/alternatives` endpoint. -/
def fastest_index (routes : List RouteResponse) : ℕ :=
  (argminFold (fun i => (routes.getD i default).summary.duration_seconds)
    (List.range routes.length)).getD 0

/-! #### Risk-zone cache machine and API error mapping -/

/-- The cache fields of `RiskZoneService`. -/
structure CacheState where
  cache_loaded : Bool
  cached_zones : List Zone

/-- Outcome of one `_fetch_zones_from_db` attempt: the parsed zone list
(which is written to the cache), or a raised exception. -/
inductive FetchOutcome where
  | ok (zones : List Zone)
  | fail

/-- `RiskZoneService.get_risk_zones` with `db=None`: serve the loaded
non-empty cache; otherwise fetch; on fetch failure serve the cached list
if it is non-empty, else raise `RiskZoneServiceError`. -/
def get_risk_zones_model (cs : CacheState) (fetch : FetchOutcome) :
    Except Unit (List Zone) × CacheState :=
  match cs.cache_loaded, cs.cached_zones with
  | true, z :: zs => (.ok (z :: zs), cs)
  | _, _ =>
    match fetch with
    | .ok zs => (.ok zs, ⟨true, zs⟩)
    | .fail =>
      match cs.cached_zones with
      | z :: zs => (.ok (z :: zs), cs)
      | [] => (.error (), cs)

/-- What the `/calculate` endpoint replies: the route, or an HTTP status
with an error code (`ValueError` → 422 `ROUTING_ERROR`; transport, HTTP
status, risk-zone and unexpected errors → 503 `SERVICE_UNAVAILABLE`). -/
inductive ApiResult where
  | ok (route : RouteResponse)
  | error (status : ℕ) (code : String)

/-- The exception mapping of the `/calculate` endpoint. -/
def calculate_endpoint_result : Except PyErr RouteResponse → ApiResult
  | .ok r => .ok r
  | .error .valueErr => .error 422 "ROUTING_ERROR"
  | .error .connectErr => .error 503 "SERVICE_UNAVAILABLE"
  | .error .httpStatusErr => .error 503 "SERVICE_UNAVAILABLE"
  | .error .riskZoneErr => .error 503 "SERVICE_UNAVAILABLE"
  | .error .indexErr => .error 503 "SERVICE_UNAVAILABLE"

/-! #### Concrete scenario data for the orchestrator-level claims -/

/-- An environment with the risk-zone source down and nothing cached. -/
noncomputable def extDown : Ext := ⟨none, none, fun _ => false⟩

/-- The empty engine oracle. -/
def stEmpty : OrState := ⟨[], []⟩

/-- A SCENIC request. -/
noncomputable def reqScenic : RouteRequest :=
  ⟨⟨0, 0⟩, ⟨0, 1⟩, ⟨RouteProfile.scenic, false, false⟩⟩

/-- A SAFEST request (no bike-lane preference) for a 0.001-degree hop along
the equator. -/
noncomputable def reqSafest : RouteRequest :=
  ⟨⟨0, 0⟩, ⟨0, 0.001⟩, ⟨RouteProfile.safest, false, false⟩⟩

/-- A HIGH-severity active zone centred at latitude 0, longitude 5 — far
outside the waypoint search's bounding box for `reqSafest`, but crossed by
the engine reply below. -/
noncomputable def zoneFar : Zone :=
  { id := "zf", lon := 5, lat := 0, radius_meters := 400000,
    severity := "HIGH", reported_count := 200 }

/-- An environment whose zone snapshot is exactly `[zoneFar]`. -/
noncomputable def extC1 : Ext := ⟨some [zoneFar], none, fun _ => false⟩

/-- An engine reply: one leg whose shape decodes (precision 6) to the
single point `[5, 0]` — the centre of `zoneFar` — summarised as
1 km / 600 s, no elevation samples, no alternates. -/
noncomputable def tripC1 : VResp :=
  VResp.mk (some ⟨⟨1, 600⟩, [⟨"?_sdpH", [], none, ⟨1, 600⟩⟩]⟩) [] []

/-- The oracle for the C1 scenario: the first candidate request succeeds
with `tripC1`; every later engine call fails at transport level. -/
noncomputable def stC1 : OrState := ⟨[Reply.success tripC1], []⟩

/-! ### General facts about the numeric primitives -/

theorem arctan_nonneg_of_nonneg (z : ℝ) (hz : 0 ≤ z) : 0 ≤ Real.arctan z := by
  have h := Real.arctan_strictMono.monotone hz
  rwa [Real.arctan_zero] at h

theorem atan2_nonneg (y x : ℝ) (hy : 0 ≤ y) : 0 ≤ atan2 y x := by
  unfold atan2
  have hπ := Real.pi_pos
  split_ifs with h1 h2 h3 h4
  · exact arctan_nonneg_of_nonneg _ (div_nonneg hy h1.le)
  · have := Real.neg_pi_div_two_lt_arctan (y / x)
    linarith
  · linarith
  · linarith
  · exact le_refl 0

theorem _haversine_distance_nonneg (lat1 lon1 lat2 lon2 : ℝ) :
    0 ≤ _haversine_distance lat1 lon1 lat2 lon2 := by
  simp only [_haversine_distance]
  exact mul_nonneg (by norm_num)
    (mul_nonneg (by norm_num) (atan2_nonneg _ _ (Real.sqrt_nonneg _)))

/-- On the equator the haversine distance between longitudes `x` and `0`
is exactly `R·x·π/180` (for `0 ≤ x < 180`). -/
theorem haversine_equator (x : ℝ) (h0 : 0 ≤ x) (h1 : x < 180) :
    _haversine_distance 0 x 0 0 = 6371000 * (x * Real.pi / 180) := by
  have hπ := Real.pi_pos
  have ht0 : 0 ≤ x * Real.pi / 360 := by positivity
  have ht1 : x * Real.pi / 360 < Real.pi / 2 := by nlinarith
  have hsin0 : 0 ≤ Real.sin (x * Real.pi / 360) :=
    Real.sin_nonneg_of_nonneg_of_le_pi ht0 (by linarith)
  have hcos : 0 < Real.cos (x * Real.pi / 360) :=
    Real.cos_pos_of_mem_Ioo ⟨by linarith, ht1⟩
  simp only [_haversine_distance, radians]
  have e1 : ((0:ℝ) - 0) * Real.pi / 180 / 2 = 0 := by ring
  have e2 : (0:ℝ) * Real.pi / 180 = 0 := by ring
  have e3 : ((0:ℝ) - x) * Real.pi / 180 / 2 = -(x * Real.pi / 360) := by ring
  rw [e1, e2, e3, Real.sin_zero, Real.cos_zero, Real.sin_neg]
  have e4 : (0:ℝ)^2 + 1 * 1 * (-Real.sin (x * Real.pi / 360))^2 =
      Real.sin (x * Real.pi / 360) ^ 2 := by ring
  rw [e4, Real.sqrt_sq hsin0]
  have e5 : 1 - Real.sin (x * Real.pi / 360) ^ 2 = Real.cos (x * Real.pi / 360) ^ 2 := by
    have := Real.sin_sq_add_cos_sq (x * Real.pi / 360)
    linarith
  rw [e5, Real.sqrt_sq hcos.le]
  unfold atan2
  rw [if_pos hcos, ← Real.tan_eq_sin_div_cos,
    Real.arctan_tan (by linarith) ht1]
  ring

theorem abs_roundHalfEven_sub_le (y : ℝ) : |(roundHalfEven y : ℝ) - y| ≤ 1 := by
  unfold roundHalfEven
  split_ifs with h
  · have hr := abs_sub_round (y / 2)
    rw [abs_sub_comm] at hr
    have e : ((2 * round (y / 2) : ℤ) : ℝ) - y = 2 * ((round (y / 2) : ℝ) - y / 2) := by
      push_cast
      ring
    rw [e, abs_mul]
    rw [abs_of_nonneg (by norm_num : (0:ℝ) ≤ 2)]
    linarith
  · have hr := abs_sub_round y
    rw [abs_sub_comm] at hr
    linarith

theorem abs_pyRound_sub_le (ndigits : ℕ) (x : ℝ) :
    |pyRound ndigits x - x| ≤ 1 / 10 ^ ndigits := by
  unfold pyRound
  have h := abs_roundHalfEven_sub_le (x * 10 ^ ndigits)
  have hp : (0:ℝ) < 10 ^ ndigits := by positivity
  have e : (roundHalfEven (x * 10 ^ ndigits) : ℝ) / 10 ^ ndigits - x =
      ((roundHalfEven (x * 10 ^ ndigits) : ℝ) - x * 10 ^ ndigits) / 10 ^ ndigits := by
    field_simp
    ring
  rw [e, abs_div, abs_of_pos hp]
  gcongr

theorem roundHalfEven_intCast (n : ℤ) : roundHalfEven (n : ℝ) = n := by
  unfold roundHalfEven
  rw [if_neg, round_intCast]
  rw [Int.fract_intCast]
  norm_num

/-- `pyRound` is the identity on values that are exact at the requested
number of digits. -/
theorem pyRound_eq_self (ndigits : ℕ) (x : ℝ) (n : ℤ)
    (h : x * 10 ^ ndigits = (n : ℝ)) : pyRound ndigits x = x := by
  unfold pyRound
  rw [h, roundHalfEven_intCast, ← h]
  have hp : (0:ℝ) < 10 ^ ndigits := by positivity
  field_simp

theorem pyInt_intCast (n : ℤ) : pyInt (n : ℝ) = n := by
  unfold pyInt
  split_ifs with h
  · exact Int.floor_intCast n
  · rw [← Int.cast_neg, Int.floor_intCast]
    ring

theorem pyUpper_LOW : pyUpper "LOW" = "LOW" := by decide

theorem hav_far_bounds : 88000 < _haversine_distance 0 0.8 0 0 ∧
    _haversine_distance 0 0.8 0 0 < 100000 := by
  rw [haversine_equator 0.8 (by norm_num) (by norm_num)]
  exact ⟨by nlinarith [Real.pi_gt_d6], by nlinarith [Real.pi_lt_d2]⟩

theorem hav_near_bounds : 0 ≤ _haversine_distance 0 0.1 0 0 ∧
    _haversine_distance 0 0.1 0 0 < 12000 := by
  rw [haversine_equator 0.1 (by norm_num) (by norm_num)]
  exact ⟨by nlinarith [Real.pi_gt_d6], by nlinarith [Real.pi_lt_d2]⟩

/-! ### C2 — `validate_route_against_zones` -/

/-- **C2 (amended).**  `validate_route_against_zones` returns `ok = true`
iff no point of the polyline lies within `alert_radius * radius_factor` of
the center of any zone passing the `min_severity` filter; the returned
count equals the length of the violations list; every violation records the
id of an offending zone together with the (rounded) distance from *some*
route point lying inside the avoidance radius — namely the first such point
in route order, not necessarily the closest one; and the orchestrator's
radius factor is `0.25` when `min_severity` is `"LOW"` and `0.2`
otherwise. -/
theorem C2_validate_amended (route_coords : List Coord) (zones : List Zone)
    (min_severity : String) (radius_factor : ℝ) :
    ((validate_route_against_zones route_coords zones min_severity radius_factor).1 = true ↔
      ∀ z ∈ filter_zones_by_severity zones min_severity, ∀ c ∈ route_coords,
        ¬ _haversine_distance c.2 c.1 z.lat z.lon < z.radius_meters * radius_factor) ∧
    ((validate_route_against_zones route_coords zones min_severity radius_factor).2.1 =
      (validate_route_against_zones route_coords zones min_severity radius_factor).2.2.length) ∧
    (∀ v ∈ (validate_route_against_zones route_coords zones min_severity radius_factor).2.2,
      ∃ z ∈ filter_zones_by_severity zones min_severity, ∃ c ∈ route_coords,
        v.zone_id = z.id ∧
        _haversine_distance c.2 c.1 z.lat z.lon < z.radius_meters * radius_factor ∧
        v.distance_m = pyRound 1 (_haversine_distance c.2 c.1 z.lat z.lon)) ∧
    avoidance_factor "LOW" = 0.25 ∧
    (∀ s, s ≠ "LOW" → avoidance_factor s = 0.2) := by
  refine ⟨?_, rfl, ?_, by simp [avoidance_factor], ?_⟩
  · simp only [validate_route_against_zones, beq_iff_eq, List.length_eq_zero,
      List.filterMap_eq_nil_iff, Option.map_eq_none', List.find?_eq_none,
      decide_eq_true_eq]
  · intro v hv
    simp only [validate_route_against_zones, List.mem_filterMap] at hv
    obtain ⟨z, hz, hfz⟩ := hv
    rw [Option.map_eq_some'] at hfz
    obtain ⟨c, hfind, hvmk⟩ := hfz
    refine ⟨z, hz, c, List.mem_of_find?_eq_some hfind, ?_, ?_, ?_⟩
    · rw [← hvmk]
    · have := List.find?_some hfind
      simpa [decide_eq_true_eq] using this
    · rw [← hvmk]
  · intro s hs
    simp [avoidance_factor, hs]

/-- **C2 (counterexample).**  On a two-point equatorial route whose first
point is about 88.9 km from the zone centre and whose second point is about
11.1 km from it (both inside the 100 km avoidance radius), the single
recorded violation carries the rounded distance of the *first* point,
which is strictly greater than the closest distance from the route to the
zone centre — so the violations list does not record closest distances. -/
theorem C2_validate_counterexample :
    ((validate_route_against_zones routeFarNear [zoneHigh] "LOW" 0.25).1 = false) ∧
    ((validate_route_against_zones routeFarNear [zoneHigh] "LOW" 0.25).2.2.map
      Violation.distance_m = [pyRound 1 (_haversine_distance 0 0.8 0 0)]) ∧
    min (_haversine_distance 0 0.8 0 0) (_haversine_distance 0 0.1 0 0) <
      pyRound 1 (_haversine_distance 0 0.8 0 0) := by
  have hfar := hav_far_bounds
  have hnear := hav_near_bounds
  have hzmem : filter_zones_by_severity [zoneHigh] "LOW" = [zoneHigh] := by
    simp [filter_zones_by_severity, severity_thresholds, pyUpper_LOW, zoneHigh]
  have hlt : _haversine_distance 0 0.8 0 0 <
      zoneHigh.radius_meters * 0.25 := by
    have h4 : zoneHigh.radius_meters * 0.25 = (100000 : ℝ) := by
      norm_num [zoneHigh]
    rw [h4]
    exact hfar.2
  have hfind : routeFarNear.find? (fun c =>
      decide (_haversine_distance c.2 c.1 zoneHigh.lat zoneHigh.lon <
        zoneHigh.radius_meters * 0.25)) = some (0.8, 0) := by
    rw [routeFarNear]
    exact List.find?_cons_of_pos _ (by exact decide_eq_true hlt)
  have hval : (validate_route_against_zones routeFarNear [zoneHigh] "LOW" 0.25).2.2 =
      [Violation.mk zoneHigh.id zoneHigh.reported_count
        (pyRound 1 (_haversine_distance 0 0.8 0 0)) zoneHigh.radius_meters
        (pyRound 1 (zoneHigh.radius_meters * 0.25))] := by
    simp only [validate_route_against_zones, hzmem, List.filterMap_cons, hfind,
      List.filterMap_nil, Option.map_some]
    rfl
  refine ⟨?_, ?_, ?_⟩
  · simp only [validate_route_against_zones, hzmem, List.filterMap_cons, hfind,
      List.filterMap_nil, Option.map_some]
    rfl
  · rw [hval]
    rfl
  · have hmin : min (_haversine_distance 0 0.8 0 0) (_haversine_distance 0 0.1 0 0) =
        _haversine_distance 0 0.1 0 0 :=
      min_eq_right (by linarith [hfar.1, hnear.2])
    rw [hmin]
    have := abs_pyRound_sub_le 1 (_haversine_distance 0 0.8 0 0)
    rw [abs_le] at this
    have h10 : (1:ℝ) / 10 ^ 1 = 1 / 10 := by norm_num
    nlinarith [hfar.1, hnear.2, this.1]

theorem C2_validate_witness : avoidance_factor "HIGH" = 0.2 :=
  (C2_validate_amended [] [] "LOW" 0).2.2.2.2 "HIGH" (by decide)

/-! ### C3 — `calculate_route_risk_score` -/

theorem foldl_add_eq_sum (l : List α) (g : α → ℝ) :
    ∀ acc : ℝ, l.foldl (fun a x => a + g x) acc = acc + (l.map g).sum := by
  induction l with
  | nil => intro acc; simp
  | cons x t ih =>
    intro acc
    simp only [List.foldl_cons, List.map_cons, List.sum_cons, ih]
    ring

theorem sum_map_filterMap_pair (l : List α) (f : α → Option β) (g : α × β → ℝ) :
    (((l.filterMap (fun a => (f a).map (fun b => (a, b)))).map g).sum) =
    (l.map (fun a => ((f a).map (fun b => g (a, b))).getD 0)).sum := by
  induction l with
  | nil => rfl
  | cons x t ih =>
    cases hfx : f x with
    | none => simp [List.filterMap_cons, hfx, ih]
    | some b => simp [List.filterMap_cons, hfx, ih]

theorem severity_weights_getD_nonneg (s : String) :
    0 ≤ (severity_weights s).getD 0.5 := by
  unfold severity_weights
  split_ifs <;> norm_num


/-- The first-entry risk total of `calculate_route_risk_score`, expressed as
a sum over the zone list: a zone contributes `closeness * weight` at the
first route point inside its danger radius, and `0` when no point enters. -/
noncomputable def riskTotalFirstEntry (route_coords : List Coord)
    (zones : List Zone) (radius_factor : ℝ) : ℝ :=
  (zones.map (fun z =>
    ((route_coords.find? (fun c =>
        decide (_haversine_distance c.2 c.1 z.lat z.lon <
          z.radius_meters * radius_factor))).map (fun c =>
      (if z.radius_meters * radius_factor > 0 then
        1 - _haversine_distance c.2 c.1 z.lat z.lon /
          (z.radius_meters * radius_factor) else 1.0) *
      ((severity_weights z.severity).getD 0.5))).getD 0)).sum

theorem risk_score_formula (route_coords : List Coord) (zones : List Zone)
    (radius_factor : ℝ) (h1 : route_coords ≠ []) (h2 : zones ≠ []) :
    (calculate_route_risk_score route_coords zones radius_factor).1 =
      min 1.0 (riskTotalFirstEntry route_coords zones radius_factor /
        (zones.length * 0.3)) := by
  have hcond : ¬(route_coords = [] ∨ zones = []) := by simp [h1, h2]
  unfold calculate_route_risk_score riskTotalFirstEntry
  rw [if_neg hcond]
  dsimp only
  rw [foldl_add_eq_sum, zero_add, sum_map_filterMap_pair]

theorem riskTotalFirstEntry_nonneg (route_coords : List Coord)
    (zones : List Zone) (radius_factor : ℝ) :
    0 ≤ riskTotalFirstEntry route_coords zones radius_factor := by
  apply List.sum_nonneg
  intro t ht
  rw [List.mem_map] at ht
  obtain ⟨z, _, hzt⟩ := ht
  subst hzt
  cases hf : route_coords.find? (fun c =>
      decide (_haversine_distance c.2 c.1 z.lat z.lon <
        z.radius_meters * radius_factor)) with
  | none => simp
  | some c =>
    have hlt : _haversine_distance c.2 c.1 z.lat z.lon <
        z.radius_meters * radius_factor := by
      have := List.find?_some hf
      simpa [decide_eq_true_eq] using this
    have hd0 := _haversine_distance_nonneg c.2 c.1 z.lat z.lon
    have hr : 0 < z.radius_meters * radius_factor := lt_of_le_of_lt hd0 hlt
    simp only [hf, Option.map_some', Option.getD_some]
    apply mul_nonneg
    · rw [if_pos hr]
      have : _haversine_distance c.2 c.1 z.lat z.lon /
          (z.radius_meters * radius_factor) < 1 := (div_lt_one hr).mpr hlt
      linarith
    · exact severity_weights_getD_nonneg z.severity

/-- **C3 (amended).**  `calculate_route_risk_score` returns a score in
`[0, 1]`; on an empty route or an empty zone list it returns `(0, 0, [])`;
the pass count equals the length of the passed-ids list; and on non-empty
input the score equals `min 1 (total / (|zones| * 0.3))` where each zone
whose danger radius `alert_radius * radius_factor` is entered contributes
`closeness * severity_weight` computed at the **first** route point inside
the danger radius (severity weights LOW 0.25, MEDIUM 0.5, HIGH 1.0,
CRITICAL 1.5, default 0.5) — not at the closest approach. -/
theorem C3_risk_score_amended (route_coords : List Coord) (zones : List Zone)
    (radius_factor : ℝ) :
    (0 ≤ (calculate_route_risk_score route_coords zones radius_factor).1 ∧
      (calculate_route_risk_score route_coords zones radius_factor).1 ≤ 1) ∧
    (route_coords = [] ∨ zones = [] →
      calculate_route_risk_score route_coords zones radius_factor = (0, 0, [])) ∧
    ((calculate_route_risk_score route_coords zones radius_factor).2.1 =
      (calculate_route_risk_score route_coords zones radius_factor).2.2.length) ∧
    (route_coords ≠ [] → zones ≠ [] →
      (calculate_route_risk_score route_coords zones radius_factor).1 =
        min 1.0 (riskTotalFirstEntry route_coords zones radius_factor /
          (zones.length * 0.3))) := by
  by_cases hdeg : route_coords = [] ∨ zones = []
  · have hz : calculate_route_risk_score route_coords zones radius_factor = (0, 0, []) := by
      unfold calculate_route_risk_score
      rw [if_pos hdeg]
      norm_num [Prod.ext_iff]
    refine ⟨⟨by simp [hz], by simp [hz]⟩, fun _ => hz, by simp [hz], ?_⟩
    intro h1 h2
    exact absurd hdeg (by simp [h1, h2])
  · push_neg at hdeg
    have hformula := risk_score_formula route_coords zones radius_factor hdeg.1 hdeg.2
    have hlen : (0:ℝ) < zones.length * 0.3 := by
      have hne : zones.length ≠ 0 := by
        simpa [List.length_eq_zero] using hdeg.2
      have hpos : 0 < zones.length := Nat.pos_of_ne_zero hne
      have : (0:ℝ) < (zones.length : ℝ) := by exact_mod_cast hpos
      nlinarith
    have hq : 0 ≤ riskTotalFirstEntry route_coords zones radius_factor /
        (zones.length * 0.3) :=
      div_nonneg (riskTotalFirstEntry_nonneg _ _ _) hlen.le
    refine ⟨⟨?_, ?_⟩, ?_, ?_, fun _ _ => hformula⟩
    · rw [hformula]
      exact le_min (by norm_num) hq
    · rw [hformula]
      exact le_trans (min_le_left _ _) (by norm_num)
    · intro h
      exact absurd h (by simp [hdeg.1, hdeg.2])
    · unfold calculate_route_risk_score
      rw [if_neg (by simp [hdeg.1, hdeg.2])]
      simp

theorem C3_risk_score_witness :
    calculate_route_risk_score [] [zoneHigh] 0.25 = (0, 0, []) :=
  (C3_risk_score_amended [] [zoneHigh] 0.25).2.1 (Or.inl rfl)

/-- **C3 (counterexample).**  On the two-point equatorial route the code
accumulates closeness at the *first* point inside the danger radius (about
88.9 km from the centre), yielding a score strictly below 1, while the
claimed closest-approach formula (closest approach about 11.1 km away,
weight 1.0 for the single HIGH zone) yields exactly 1. -/
theorem C3_risk_score_counterexample :
    (calculate_route_risk_score routeFarNear [zoneHigh] 0.25).1 ≠
      min 1 ((1 - min (_haversine_distance 0 0.8 0 0)
          (_haversine_distance 0 0.1 0 0) / (400000 * 0.25)) * 1.0 /
        (1 * 0.3)) := by
  have hfar := hav_far_bounds
  have hnear := hav_near_bounds
  have hlt : _haversine_distance 0 0.8 0 0 <
      zoneHigh.radius_meters * 0.25 := by
    have h4 : zoneHigh.radius_meters * 0.25 = (100000 : ℝ) := by
      norm_num [zoneHigh]
    rw [h4]
    exact hfar.2
  have hfind : routeFarNear.find? (fun c =>
      decide (_haversine_distance c.2 c.1 zoneHigh.lat zoneHigh.lon <
        zoneHigh.radius_meters * 0.25)) = some (0.8, 0) := by
    rw [routeFarNear]
    exact List.find?_cons_of_pos _ (by exact decide_eq_true hlt)
  have hr4 : zoneHigh.radius_meters * (0.25 : ℝ) = 100000 := by
    norm_num [zoneHigh]
  have hS : riskTotalFirstEntry routeFarNear [zoneHigh] 0.25 =
      (1 - _haversine_distance 0 0.8 0 0 / 100000) * 1.0 := by
    unfold riskTotalFirstEntry
    rw [List.map_cons, List.map_nil, hfind]
    simp only [Option.map_some', Option.getD_some, List.sum_cons, List.sum_nil]
    rw [hr4]
    rw [if_pos (by norm_num : (100000:ℝ) > 0)]
    have hwz : (severity_weights zoneHigh.severity).getD 0.5 = 1.0 := by
      simp [severity_weights, zoneHigh]
    rw [hwz]
    norm_num [zoneHigh]
  have hform := risk_score_formula routeFarNear [zoneHigh] 0.25
    (by simp [routeFarNear]) (by simp)
  have hlhs : (calculate_route_risk_score routeFarNear [zoneHigh] 0.25).1 =
      min 1 ((1 - _haversine_distance 0 0.8 0 0 / 100000) * 1.0 / (1 * 0.3)) := by
    rw [hform, hS]
    norm_num
  have hmin : min (_haversine_distance 0 0.8 0 0) (_haversine_distance 0 0.1 0 0) =
      _haversine_distance 0 0.1 0 0 :=
    min_eq_right (by linarith [hfar.1, hnear.2])
  have hrhs : min 1 ((1 - min (_haversine_distance 0 0.8 0 0)
      (_haversine_distance 0 0.1 0 0) / (400000 * 0.25)) * 1.0 / (1 * 0.3)) = 1 := by
    rw [hmin]
    apply min_eq_left
    rw [le_div_iff (by norm_num : (0:ℝ) < 1 * 0.3)]
    have hd : _haversine_distance 0 0.1 0 0 / (400000 * 0.25) < 0.12 := by
      rw [div_lt_iff (by norm_num : (0:ℝ) < 400000 * 0.25)]
      linarith [hnear.2]
    nlinarith [hnear.1]
  have hfrac : (1 - _haversine_distance 0 0.8 0 0 / 100000) * 1.0 / (1 * 0.3) < 1 := by
    rw [div_lt_iff (by norm_num : (0:ℝ) < 1 * 0.3)]
    have hd : (0.88:ℝ) < _haversine_distance 0 0.8 0 0 / 100000 := by
      rw [lt_div_iff (by norm_num : (0:ℝ) < 100000)]
      linarith [hfar.1]
    nlinarith
  rw [hlhs, hrhs]
  have : min 1 ((1 - _haversine_distance 0 0.8 0 0 / 100000) * 1.0 / (1 * 0.3)) < 1 :=
    lt_of_le_of_lt (min_le_right _ _) hfrac
  exact ne_of_lt this

/-! ### C6 — `get_exclude_polygons_for_safest` circumference budget -/

theorem excludeSelect_invariant (buffer_multiplier max_total_circumference : ℝ) :
    ∀ (l : List Zone) (total : ℝ), total ≤ max_total_circumference →
      (excludeSelect buffer_multiplier max_total_circumference l total).2 ≤
        max_total_circumference ∧
      (excludeSelect buffer_multiplier max_total_circumference l total).2 =
        total + ((excludeSelect buffer_multiplier max_total_circumference l
          total).1.map (fun zr => 2 * Real.pi * zr.2)).sum := by
  intro l
  induction l with
  | nil =>
    intro total h
    exact ⟨h, by simp [excludeSelect]⟩
  | cons z zs ih =>
    intro total h
    simp only [excludeSelect]
    split_ifs with hb
    · exact ⟨h, by simp⟩
    · push_neg at hb
      obtain ⟨ih1, ih2⟩ := ih
        (total + 2 * Real.pi * (min z.radius_meters 150 * buffer_multiplier)) hb
      refine ⟨ih1, ?_⟩
      rw [ih2]
      simp only [List.map_cons, List.sum_cons]
      ring

theorem excludeSelect_prefix (buffer_multiplier max_total_circumference : ℝ) :
    ∀ (l : List Zone) (total : ℝ), ∃ k,
      (excludeSelect buffer_multiplier max_total_circumference l total).1.map
        Prod.fst = l.take k := by
  intro l
  induction l with
  | nil => intro total; exact ⟨0, by simp [excludeSelect]⟩
  | cons z zs ih =>
    intro total
    simp only [excludeSelect]
    split_ifs with hb
    · exact ⟨0, by simp⟩
    · obtain ⟨k, hk⟩ := ih
        (total + 2 * Real.pi * (min z.radius_meters 150 * buffer_multiplier))
      exact ⟨k + 1, by simp [List.take_succ_cons, hk]⟩

/-- **C6.**  `get_exclude_polygons_for_safest` emits one 8-vertex circular
polygon of radius `min(alert_radius, 150) * buffer_mult` per selected zone;
the selected zones form a prefix of the severity-filtered list sorted by
descending `reported_count`; and the total of the corresponding circle
circumferences `2*pi*r` never exceeds `max_total_circumference`. -/
theorem C6_exclusion_budget (zones : List Zone)
    (buffer_multiplier max_total_circumference : ℝ) (min_severity : String)
    (h : 0 ≤ max_total_circumference) :
    ((((excludeSelect buffer_multiplier max_total_circumference
        (sortZonesDesc (filter_zones_by_severity zones min_severity)) 0).1.map
      (fun zr => 2 * Real.pi * zr.2)).sum ≤ max_total_circumference) ∧
    (get_exclude_polygons_for_safest zones buffer_multiplier min_severity
        max_total_circumference =
      (excludeSelect buffer_multiplier max_total_circumference
        (sortZonesDesc (filter_zones_by_severity zones min_severity)) 0).1.map
        (fun zr => create_circular_polygon zr.1.lon zr.1.lat zr.2 8)) ∧
    (∃ k, (excludeSelect buffer_multiplier max_total_circumference
        (sortZonesDesc (filter_zones_by_severity zones min_severity)) 0).1.map
          Prod.fst =
      (sortZonesDesc (filter_zones_by_severity zones min_severity)).take k)) := by
  obtain ⟨h1, h2⟩ := excludeSelect_invariant buffer_multiplier
    max_total_circumference
    (sortZonesDesc (filter_zones_by_severity zones min_severity)) 0 h
  refine ⟨by linarith, ?_, excludeSelect_prefix _ _ _ 0⟩
  by_cases hz : zones = []
  · subst hz
    simp [get_exclude_polygons_for_safest, filter_zones_by_severity,
      sortZonesDesc, excludeSelect]
  · unfold get_exclude_polygons_for_safest
    rw [if_neg hz]

theorem C6_exclusion_budget_witness :
    (0:ℝ) ≤ 9500 ∧
    ((((excludeSelect 1.5 9500
        (sortZonesDesc (filter_zones_by_severity [zoneHigh] "LOW")) 0).1.map
      (fun zr => 2 * Real.pi * zr.2)).sum ≤ 9500) ∧
    (get_exclude_polygons_for_safest [zoneHigh] 1.5 "LOW" 9500 =
      (excludeSelect 1.5 9500
        (sortZonesDesc (filter_zones_by_severity [zoneHigh] "LOW")) 0).1.map
        (fun zr => create_circular_polygon zr.1.lon zr.1.lat zr.2 8)) ∧
    (∃ k, (excludeSelect 1.5 9500
        (sortZonesDesc (filter_zones_by_severity [zoneHigh] "LOW")) 0).1.map
          Prod.fst =
      (sortZonesDesc (filter_zones_by_severity [zoneHigh] "LOW")).take k)) :=
  ⟨by norm_num, C6_exclusion_budget [zoneHigh] 1.5 9500 "LOW" (by norm_num)⟩

/-! ### C8 / C10 — polyline decoding -/

theorem parseVarint_length_lt : ∀ (l : List Char) (shift : ℕ) (result v : ℤ)
    (rest : List Char), parseVarint l shift result = some (v, rest) →
    rest.length < l.length := by
  intro l
  induction l with
  | nil => intro _ _ _ _ h; simp [parseVarint] at h
  | cons a t ih =>
    intro shift result v rest h
    simp only [parseVarint] at h
    split at h
    · cases h; simp
    · exact Nat.lt_trans (ih _ _ _ _ h) (by simp)

theorem parseVarint_chunkSpan : ∀ (l : List Char) (shift : ℕ) (result : ℤ),
    (parseVarint l shift result).map Prod.snd = chunkSpan l := by
  intro l
  induction l with
  | nil => intro _ _; rfl
  | cons c t ih =>
    intro shift result
    simp only [parseVarint, chunkSpan]
    split
    · rfl
    · exact ih _ _

theorem chunkSpan_parseVarint (l rest : List Char) (shift : ℕ) (result : ℤ)
    (h : chunkSpan l = some rest) :
    ∃ v, parseVarint l shift result = some (v, rest) := by
  have hmap := parseVarint_chunkSpan l shift result
  rw [h] at hmap
  cases hp : parseVarint l shift result with
  | none => rw [hp] at hmap; simp at hmap
  | some pr =>
    obtain ⟨v, rest0⟩ := pr
    rw [hp] at hmap
    simp only [Option.map_some', Option.some.injEq] at hmap
    exact ⟨v, by rw [hmap]⟩

theorem decodeLoop_total (precision : ℕ) :
    ∀ (n m : ℕ) (l : List Char) (lat lng : ℤ), l.length ≤ n → l.length ≤ m →
      wellFormedAux m l = true → (decodeLoop precision n l lat lng).isSome = true := by
  intro n
  induction n with
  | zero =>
    intro m l lat lng hn _ _
    cases l with
    | nil => simp [decodeLoop]
    | cons c cs => simp at hn
  | succ n ih =>
    intro m l lat lng hn hm hwf
    cases l with
    | nil => simp [decodeLoop]
    | cons c cs =>
      cases m with
      | zero => simp at hm
      | succ m2 =>
        simp only [wellFormedAux] at hwf
        split at hwf
        · exact absurd hwf (by simp)
        · next rest1 h1 =>
          split at hwf
          · exact absurd hwf (by simp)
          · next rest2 h2 =>
            obtain ⟨v1, hp1⟩ := chunkSpan_parseVarint (c :: cs) rest1 0 0 h1
            obtain ⟨v2, hp2⟩ := chunkSpan_parseVarint rest1 rest2 0 0 h2
            have l1 := parseVarint_length_lt _ _ _ _ _ hp1
            have l2 := parseVarint_length_lt _ _ _ _ _ hp2
            simp only [List.length_cons] at hn hm l1
            have hr : ∀ la ln : ℤ, (decodeLoop precision n rest2 la ln).isSome = true := by
              intro la ln
              refine ih m2 rest2 la ln ?_ ?_ hwf
              · omega
              · omega
            simp only [decodeLoop, hp1, hp2]
            cases hd : decodeLoop precision n rest2
                (lat + (if Int.land v1 1 = 1 then pyNot (v1 >>> 1) else v1 >>> 1))
                (lng + (if Int.land v2 1 = 1 then pyNot (v2 >>> 1) else v2 >>> 1)) with
            | none =>
              have := hr (lat + (if Int.land v1 1 = 1 then pyNot (v1 >>> 1) else v1 >>> 1))
                (lng + (if Int.land v2 1 = 1 then pyNot (v2 >>> 1) else v2 >>> 1))
              rw [hd] at this
              simp at this
            | some tail => simp

/-- **C10.**  The decoder is total exactly on well-formed polyline strings:
every string made of a whole number of two-varint coordinate groups decodes
to `some` list, while a string ending mid-chunk with the continuation bit
set (`"_"`), or ending after a complete latitude group but before any
longitude group (`"?"`), drives the Python loops past the end of the string
(`IndexError`), i.e. into the `none` branch of the total embedding. -/
theorem C10_decode_totality :
    (∀ s : String, wellFormedPolyline s = true →
      (_decode_polyline s 6).isSome = true) ∧
    _decode_polyline "_" 6 = none ∧
    _decode_polyline "?" 6 = none ∧
    wellFormedPolyline "_" = false ∧
    wellFormedPolyline "?" = false := by
  refine ⟨?_, by decide, by decide, by decide, by decide⟩
  intro s hwf
  exact decodeLoop_total 6 s.toList.length s.toList.length s.toList 0 0
    le_rfl le_rfl hwf

theorem C10_decode_totality_witness :
    wellFormedPolyline "_p~iF~ps|U_ulLnnqC_mqNvxq`@" = true ∧
    (_decode_polyline "_p~iF~ps|U_ulLnnqC_mqNvxq`@" 6).isSome = true :=
  ⟨by decide, C10_decode_totality.1 "_p~iF~ps|U_ulLnnqC_mqNvxq`@" (by decide)⟩

/-- **C8 (counterexample).**  Decoding the golden string at the code's
precision 6 does *not* yield the claimed `[lon, lat]` pairs — those are the
precision-5 values; at precision 6 every coordinate is ten times smaller. -/
theorem C8_decode_golden_counterexample :
    _decode_polyline "_p~iF~ps|U_ulLnnqC_mqNvxq`@" 6 ≠
      some [(-120.2, 38.5), (-120.95, 40.7), (-126.453, 43.252)] := by
  have hdec : _decode_polyline "_p~iF~ps|U_ulLnnqC_mqNvxq`@" 6 =
      some [(Rat.divInt (-12020000) ((10 ^ 6 : ℕ) : ℤ),
             Rat.divInt 3850000 ((10 ^ 6 : ℕ) : ℤ)),
            (Rat.divInt (-12095000) ((10 ^ 6 : ℕ) : ℤ),
             Rat.divInt 4070000 ((10 ^ 6 : ℕ) : ℤ)),
            (Rat.divInt (-12645300) ((10 ^ 6 : ℕ) : ℤ),
             Rat.divInt 4325200 ((10 ^ 6 : ℕ) : ℤ))] := by decide
  have hne : Rat.divInt (-12020000) ((10 ^ 6 : ℕ) : ℤ) ≠ (-120.2 : ℚ) := by
    rw [Rat.divInt_eq_div]
    norm_num
  intro h
  rw [hdec] at h
  simp only [Option.some.injEq, List.cons.injEq, Prod.mk.injEq] at h
  exact hne h.1.1

/-- **C8 (amended).**  At the code's precision 6 the golden string decodes
to `[[-12.02, 3.85], [-12.095, 4.07], [-12.6453, 4.3252]]`; the pairs the
claim lists are exactly what the decoder returns at precision 5. -/
theorem C8_decode_golden_amended :
    _decode_polyline "_p~iF~ps|U_ulLnnqC_mqNvxq`@" 6 =
      some [(-12.02, 3.85), (-12.095, 4.07), (-12.6453, 4.3252)] ∧
    _decode_polyline "_p~iF~ps|U_ulLnnqC_mqNvxq`@" 5 =
      some [(-120.2, 38.5), (-120.95, 40.7), (-126.453, 43.252)] := by
  constructor
  · have e1 : (-12.02 : ℚ) = Rat.divInt (-12020000) ((10 ^ 6 : ℕ) : ℤ) := by
      rw [Rat.divInt_eq_div]; norm_num
    have e2 : (3.85 : ℚ) = Rat.divInt 3850000 ((10 ^ 6 : ℕ) : ℤ) := by
      rw [Rat.divInt_eq_div]; norm_num
    have e3 : (-12.095 : ℚ) = Rat.divInt (-12095000) ((10 ^ 6 : ℕ) : ℤ) := by
      rw [Rat.divInt_eq_div]; norm_num
    have e4 : (4.07 : ℚ) = Rat.divInt 4070000 ((10 ^ 6 : ℕ) : ℤ) := by
      rw [Rat.divInt_eq_div]; norm_num
    have e5 : (-12.6453 : ℚ) = Rat.divInt (-12645300) ((10 ^ 6 : ℕ) : ℤ) := by
      rw [Rat.divInt_eq_div]; norm_num
    have e6 : (4.3252 : ℚ) = Rat.divInt 4325200 ((10 ^ 6 : ℕ) : ℤ) := by
      rw [Rat.divInt_eq_div]; norm_num
    rw [e1, e2, e3, e4, e5, e6]
    decide
  · have e1 : (-120.2 : ℚ) = Rat.divInt (-12020000) ((10 ^ 5 : ℕ) : ℤ) := by
      rw [Rat.divInt_eq_div]; norm_num
    have e2 : (38.5 : ℚ) = Rat.divInt 3850000 ((10 ^ 5 : ℕ) : ℤ) := by
      rw [Rat.divInt_eq_div]; norm_num
    have e3 : (-120.95 : ℚ) = Rat.divInt (-12095000) ((10 ^ 5 : ℕ) : ℤ) := by
      rw [Rat.divInt_eq_div]; norm_num
    have e4 : (40.7 : ℚ) = Rat.divInt 4070000 ((10 ^ 5 : ℕ) : ℤ) := by
      rw [Rat.divInt_eq_div]; norm_num
    have e5 : (-126.453 : ℚ) = Rat.divInt (-12645300) ((10 ^ 5 : ℕ) : ℤ) := by
      rw [Rat.divInt_eq_div]; norm_num
    have e6 : (43.252 : ℚ) = Rat.divInt 4325200 ((10 ^ 5 : ℕ) : ℤ) := by
      rw [Rat.divInt_eq_div]; norm_num
    rw [e1, e2, e3, e4, e5, e6]
    decide

/-! ### C7 — `calculate_bike_lane_percentage` -/

theorem _haversine_distance_self (lat lon : ℝ) :
    _haversine_distance lat lon lat lon = 0 := by
  simp only [_haversine_distance, radians, sub_self, zero_mul, zero_div,
    Real.sin_zero, mul_zero, add_zero, zero_add]
  norm_num [atan2, Real.arctan_zero]

theorem roundHalfEven_nonneg (y : ℝ) (h : 0 ≤ y) : 0 ≤ roundHalfEven y := by
  unfold roundHalfEven
  split_ifs with hf
  · have h2 : (0:ℤ) ≤ round (y / 2) := by
      rw [round_eq]
      apply Int.le_floor.mpr
      push_cast
      linarith
    omega
  · rw [round_eq]
    apply Int.le_floor.mpr
    push_cast
    linarith

theorem roundHalfEven_le_thousand (y : ℝ) (h : y ≤ 1000) :
    roundHalfEven y ≤ 1000 := by
  unfold roundHalfEven
  split_ifs with hf
  · unfold Int.fract at hf
    have hfl : ⌊y⌋ ≤ 999 := by
      have hlt : ((⌊y⌋ : ℤ) : ℝ) < 1000 := by linarith
      have : ⌊y⌋ < 1000 := by exact_mod_cast hlt
      omega
    have hfl' : ((⌊y⌋ : ℤ) : ℝ) ≤ 999 := by exact_mod_cast hfl
    have hr : round (y / 2) ≤ 500 := by
      rw [round_eq]
      have hlt : y / 2 + 1 / 2 < (501 : ℤ) := by
        push_cast
        linarith
      have := Int.floor_lt.mpr hlt
      omega
    omega
  · rw [round_eq]
    have hlt : y + 1 / 2 < (1001 : ℤ) := by
      push_cast
      linarith
    have := Int.floor_lt.mpr hlt
    omega

theorem pyRound1_bounds (x : ℝ) (h0 : 0 ≤ x) (h1 : x ≤ 100) :
    0 ≤ pyRound 1 x ∧ pyRound 1 x ≤ 100 := by
  unfold pyRound
  constructor
  · apply div_nonneg ?_ (by norm_num)
    have := roundHalfEven_nonneg (x * 10 ^ 1) (by nlinarith)
    exact_mod_cast this
  · rw [div_le_iff (by norm_num : (0:ℝ) < 10 ^ 1)]
    have := roundHalfEven_le_thousand (x * 10 ^ 1) (by nlinarith)
    have hc : ((roundHalfEven (x * 10 ^ 1) : ℤ) : ℝ) ≤ 1000 := by exact_mod_cast this
    linarith

/-- **C7 (amended).**  The coverage measure is clamped to `[0, 100]` (and
then rounded to one decimal, which preserves the interval); any
zero-length two-point input `[p, p]` yields `0`, as does any input with
fewer than two points or an unavailable bike-lane union.  The segment
samples sit at parametric positions `{0, 0.33, 0.67, 1}` — the code's
literals — not at `{0, 1/3, 2/3, 1}`. -/
theorem C7_coverage_amended (geomDist : Option (ℝ → ℝ → ℝ))
    (route_coordinates : List Coord) (max_distance_meters : ℝ) :
    (0 ≤ calculate_bike_lane_percentage geomDist route_coordinates
        max_distance_meters ∧
      calculate_bike_lane_percentage geomDist route_coordinates
        max_distance_meters ≤ 100) ∧
    (∀ p : Coord, calculate_bike_lane_percentage geomDist [p, p]
        max_distance_meters = 0) ∧
    (route_coordinates.length < 2 →
      calculate_bike_lane_percentage geomDist route_coordinates
        max_distance_meters = 0) ∧
    (geomDist = none →
      calculate_bike_lane_percentage geomDist route_coordinates
        max_distance_meters = 0) := by
  refine ⟨?_, ?_, ?_, ?_⟩
  · unfold calculate_bike_lane_percentage
    split_ifs with hlen
    · norm_num
    · cases geomDist with
      | none => norm_num
      | some dist =>
        dsimp only
        split_ifs with htot
        · norm_num
        · apply pyRound1_bounds
          · refine le_min (by norm_num) ?_
            exact le_trans (by norm_num) (le_max_left _ _)
          · exact le_trans (min_le_left _ _) (by norm_num)
  · intro p
    cases geomDist with
    | none => norm_num [calculate_bike_lane_percentage]
    | some dist =>
      unfold calculate_bike_lane_percentage
      rw [if_neg (by norm_num)]
      dsimp only
      have hseg : ([p, p] : List Coord).zip ([p, p] : List Coord).tail = [(p, p)] := rfl
      rw [hseg, List.map_cons, List.map_nil, _haversine_distance_self]
      norm_num
  · intro hlen
    unfold calculate_bike_lane_percentage
    rw [if_pos hlen]
    norm_num
  · intro hget
    subst hget
    norm_num [calculate_bike_lane_percentage]

theorem C7_coverage_witness :
    calculate_bike_lane_percentage none [((0:ℝ), 0), (1, 0)] 25 = 0 :=
  (C7_coverage_amended none [((0:ℝ), 0), (1, 0)] 25).2.2.2 rfl

/-- **C7 (counterexample).**  With a bike-lane union sitting exactly at the
equator points `(0, 0)` and `(0.33, 0)`, the one-segment route from
`(1, 0)` to `(0, 0)` has two of the code's four samples (positions `0.67`
and `1`, i.e. longitudes `0.33` and `0`) on the network, so the code
returns `100`; under the claimed sampling positions `{0, 1/3, 2/3, 1}`
only one sample (the endpoint) is on the network, so the claimed value is
`0`. -/
theorem C7_coverage_counterexample :
    calculate_bike_lane_percentage (some laneDistCex) [((1:ℝ), 0), (0, 0)] 25 = 100 ∧
    spec_calculate_bike_lane_percentage (some laneDistCex) [((1:ℝ), 0), (0, 0)] 25 = 0 := by
  have hK : _haversine_distance 0 1 0 0 = 6371000 * (1 * Real.pi / 180) :=
    haversine_equator 1 (by norm_num) (by norm_num)
  have hpos : 0 < _haversine_distance 0 1 0 0 := by
    rw [hK]
    have := Real.pi_pos
    nlinarith
  have hoff : ∀ lon lat : ℝ, laneDistCex lon lat = 1 →
      decide (laneDistCex lon lat ≤ (25:ℝ) / 90000) = false := by
    intro lon lat h
    apply decide_eq_false
    rw [h]
    norm_num
  have hon : ∀ lon lat : ℝ, laneDistCex lon lat = 0 →
      decide (laneDistCex lon lat ≤ (25:ℝ) / 90000) = true := by
    intro lon lat h
    apply decide_eq_true
    rw [h]
    norm_num
  constructor
  · unfold calculate_bike_lane_percentage
    rw [if_neg (by norm_num)]
    dsimp only
    have hseg : ([((1:ℝ), 0), (0, 0)] : List Coord).zip
        ([((1:ℝ), 0), (0, 0)] : List Coord).tail = [(((1:ℝ), 0), ((0:ℝ), 0))] := rfl
    rw [hseg]
    simp only [List.map_cons, List.map_nil, List.sum_cons, List.sum_nil,
      List.filter_cons, List.filter_nil]
    dsimp only
    rw [hoff 1 0 (by unfold laneDistCex; rw [if_neg (by norm_num)])]
    rw [hoff (1 + (0 - 1) * 0.33) (0 + (0 - 0) * 0.33)
      (by unfold laneDistCex; rw [if_neg (by norm_num)])]
    rw [hon (1 + (0 - 1) * 0.67) (0 + (0 - 0) * 0.67)
      (by unfold laneDistCex; rw [if_pos (by norm_num)])]
    rw [hon 0 0 (by unfold laneDistCex; rw [if_pos (by norm_num)])]
    simp only [Bool.false_eq_true, if_false, if_true, List.filter_nil,
      List.length_cons, List.length_nil, add_zero]
    rw [if_neg (ne_of_gt hpos)]
    rw [if_pos (by norm_num)]
    rw [div_self (ne_of_gt hpos)]
    have hclamp : min 100.0 (max 0.0 ((1:ℝ) * 100)) = 100 := by norm_num
    rw [hclamp]
    exact pyRound_eq_self 1 100 1000 (by norm_num)
  · unfold spec_calculate_bike_lane_percentage
    rw [if_neg (by norm_num)]
    dsimp only
    have hseg : ([((1:ℝ), 0), (0, 0)] : List Coord).zip
        ([((1:ℝ), 0), (0, 0)] : List Coord).tail = [(((1:ℝ), 0), ((0:ℝ), 0))] := rfl
    rw [hseg]
    simp only [List.map_cons, List.map_nil, List.sum_cons, List.sum_nil,
      List.filter_cons, List.filter_nil]
    dsimp only
    rw [hoff 1 0 (by unfold laneDistCex; rw [if_neg (by norm_num)])]
    rw [hoff (1 + (0 - 1) * (1/3)) (0 + (0 - 0) * (1/3))
      (by unfold laneDistCex; rw [if_neg (by norm_num)])]
    rw [hoff (1 + (0 - 1) * (2/3)) (0 + (0 - 0) * (2/3))
      (by unfold laneDistCex; rw [if_neg (by norm_num)])]
    rw [hon 0 0 (by unfold laneDistCex; rw [if_pos (by norm_num)])]
    simp only [Bool.false_eq_true, if_false, if_true, List.filter_nil,
      List.length_cons, List.length_nil, add_zero]
    rw [if_neg (ne_of_gt hpos)]
    rw [if_neg (by norm_num)]
    norm_num

/-! ### C5 — profile dispatch of `calculate_route` -/

/-- **C5** (amended).  `calculate_route` dispatches by profile: SAFEST with
`prefer_bike_lanes` to the bike-lane-preferred pipeline, SAFEST otherwise
to the avoidance pipeline at min_severity LOW, BALANCED to the avoidance
pipeline at min_severity HIGH, and FASTEST to the fastest pipeline — but
SCENIC also falls through to the *fastest* pipeline (engine.py line 91
handles every non-SAFEST, non-BALANCED profile identically), not to the
avoidance pipeline with scenic costing options that the spec prescribes. -/
theorem C5_dispatch_amended (ext : Ext) (request : RouteRequest) (st : OrState) :
    (request.preferences.profile = RouteProfile.safest →
      (request.preferences.prefer_bike_lanes = true →
        calculate_route ext request st =
          _calculate_bike_lane_preferred_route ext request st) ∧
      (request.preferences.prefer_bike_lanes = false →
        calculate_route ext request st =
          _calculate_safest_route ext request "LOW" st)) ∧
    (request.preferences.profile = RouteProfile.balanced →
      calculate_route ext request st =
        _calculate_safest_route ext request "HIGH" st) ∧
    (request.preferences.profile = RouteProfile.fastest →
      calculate_route ext request st = _calculate_fastest_route ext request st) ∧
    (request.preferences.profile = RouteProfile.scenic →
      calculate_route ext request st = _calculate_fastest_route ext request st) := by
  refine ⟨fun h => ⟨fun hb => ?_, fun hb => ?_⟩, fun h => ?_, fun h => ?_,
    fun h => ?_⟩ <;> simp [calculate_route, h] <;> simp [hb]

/-- Witness: the SCENIC clause of `C5_dispatch_amended` at a concrete
request. -/
theorem C5_dispatch_witness :
    reqScenic.preferences.profile = RouteProfile.scenic ∧
    calculate_route extDown reqScenic stEmpty =
      _calculate_fastest_route extDown reqScenic stEmpty :=
  ⟨rfl, (C5_dispatch_amended extDown reqScenic stEmpty).2.2.2 rfl⟩

/-- **C5** (counterexample to the SCENIC clause of the claim): with the
risk-zone source down, the avoidance pipeline the spec prescribes for
SCENIC fails with `RiskZoneServiceError`, but the code's SCENIC dispatch —
the fastest pipeline — fails with a transport error instead (it never
consults the risk zones), so the two dispatch targets are observably
different. -/
theorem C5_scenic_counterexample :
    (calculate_route extDown reqScenic stEmpty).1 = .error .connectErr ∧
    (spec_scenic_dispatch extDown reqScenic stEmpty).1 = .error .riskZoneErr ∧
    PyErr.connectErr ≠ PyErr.riskZoneErr :=
  ⟨rfl, rfl, fun h => PyErr.noConfusion h⟩

/-! ### C4 — cache fallback of `get_risk_zones` and the 503 mapping -/

theorem parse_not_ok_of_down (ext : Ext) (resp : VResp) (st : OrState)
    (h : ext.zoneFetch = none) (r : RouteResponse) :
    (_parse_valhalla_response ext resp st).1 ≠ .ok r := by
  intro hc
  unfold _parse_valhalla_response at hc
  have hg : getRiskZonesE ext = .error .riskZoneErr := by
    unfold getRiskZonesE
    rw [h]
  rw [hg] at hc
  split at hc
  · simp at hc
  · split at hc
    · simp at hc
    · split at hc
      · simp at hc
      · simp at hc

theorem fastestLoop_none_of_down (ext : Ext) (request : RouteRequest)
    (h : ext.zoneFetch = none) :
    ∀ (opts : List BicycleOptions) (st : OrState),
      (fastestLoop ext request opts none st).1 = none := by
  intro opts
  induction opts with
  | nil => intro st; rfl
  | cons opt rest ih =>
    intro st
    unfold fastestLoop
    dsimp only
    split
    · exact ih _
    · exact ih _
    · split
      · exact ih _
      · next route st2 heq =>
        exact absurd (congrArg Prod.fst heq) (parse_not_ok_of_down ext _ _ h route)

theorem fastestAlternates_none_of_down (ext : Ext) (request : RouteRequest)
    (h : ext.zoneFetch = none) (st : OrState) :
    (fastestAlternates ext request none st).1 = none := by
  unfold fastestAlternates
  dsimp only
  split
  · rfl
  · rfl
  · split
    · rfl
    · next route st2 heq =>
      exact absurd (congrArg Prod.fst heq) (parse_not_ok_of_down ext _ _ h route)

theorem basic_not_ok_of_down (ext : Ext) (request : RouteRequest) (st : OrState)
    (h : ext.zoneFetch = none) (r : RouteResponse) :
    (_calculate_basic_safest ext request st).1 ≠ .ok r := by
  unfold _calculate_basic_safest
  dsimp only
  split
  · simp
  · simp
  · exact parse_not_ok_of_down ext _ _ h r

theorem fastest_not_ok_of_down (ext : Ext) (request : RouteRequest)
    (st : OrState) (h : ext.zoneFetch = none) (r : RouteResponse) :
    (_calculate_fastest_route ext request st).1 ≠ .ok r := by
  have hA : (fastestAlternates ext request
      (fastestLoop ext request fastest_route_options none st).1
      (fastestLoop ext request fastest_route_options none st).2).1 = none := by
    rw [fastestLoop_none_of_down ext request h]
    exact fastestAlternates_none_of_down ext request h _
  unfold _calculate_fastest_route
  dsimp only
  rw [hA]
  exact basic_not_ok_of_down ext request _ h r

/-- **C4** (amended).  With `db=None`, `get_risk_zones` raises
`RiskZoneServiceError` on a fetch failure exactly when the cached *list*
is empty — even when a prior (empty) snapshot was successfully loaded —
and serves the stale cached list whenever it is non-empty; and whenever
every `get_risk_zones` call of a request fails (source down, no usable
cache), `calculate_route` never returns a route, and for the
zone-consulting profiles (SAFEST, BALANCED) the `/calculate` endpoint
replies 503 `SERVICE_UNAVAILABLE`. -/
theorem C4_cache_amended :
    (∀ cs : CacheState,
      ((get_risk_zones_model cs .fail).1 = .error () ↔ cs.cached_zones = []) ∧
      (cs.cached_zones ≠ [] →
        (get_risk_zones_model cs .fail).1 = .ok cs.cached_zones)) ∧
    (∀ (ext : Ext) (request : RouteRequest) (st : OrState),
      ext.zoneFetch = none →
      (∀ r, (calculate_route ext request st).1 ≠ .ok r) ∧
      ((request.preferences.profile = RouteProfile.safest ∨
        request.preferences.profile = RouteProfile.balanced) →
        calculate_endpoint_result (calculate_route ext request st).1 =
          .error 503 "SERVICE_UNAVAILABLE")) := by
  constructor
  · intro cs
    obtain ⟨l, z⟩ := cs
    cases l <;> cases z <;> simp [get_risk_zones_model]
  · intro ext request st h
    have hg : getRiskZonesE ext = .error .riskZoneErr := by
      unfold getRiskZonesE
      rw [h]
    constructor
    · intro r
      rcases hp : request.preferences.profile
      · by_cases hb : request.preferences.prefer_bike_lanes
        · simp [calculate_route, hp, hb, _calculate_bike_lane_preferred_route, hg]
        · simp [calculate_route, hp, hb, _calculate_safest_route, hg]
      · simp only [calculate_route, hp]
        norm_num
        exact fastest_not_ok_of_down ext request st h r
      · simp [calculate_route, hp, _calculate_safest_route, hg]
      · simp only [calculate_route, hp]
        norm_num
        exact fastest_not_ok_of_down ext request st h r
    · intro hpr
      rcases hpr with hp | hp
      · by_cases hb : request.preferences.prefer_bike_lanes
        · simp [calculate_route, hp, hb, _calculate_bike_lane_preferred_route,
            hg, calculate_endpoint_result]
        · simp [calculate_route, hp, hb, _calculate_safest_route, hg,
            calculate_endpoint_result]
      · simp [calculate_route, hp, _calculate_safest_route, hg,
          calculate_endpoint_result]

/-- Witness for `C4_cache_amended` at a concrete environment and request. -/
theorem C4_cache_witness :
    extDown.zoneFetch = none ∧
    ([zoneHigh] : List Zone) ≠ [] ∧
    (get_risk_zones_model ⟨false, [zoneHigh]⟩ .fail).1 = .ok [zoneHigh] ∧
    (∀ r, (calculate_route extDown reqSafest stEmpty).1 ≠ .ok r) ∧
    calculate_endpoint_result (calculate_route extDown reqSafest stEmpty).1 =
      .error 503 "SERVICE_UNAVAILABLE" :=
  ⟨rfl, by simp,
    (C4_cache_amended.1 ⟨false, [zoneHigh]⟩).2 (by simp),
    (C4_cache_amended.2 extDown reqSafest stEmpty rfl).1,
    (C4_cache_amended.2 extDown reqSafest stEmpty rfl).2 (Or.inl rfl)⟩

/-- **C4** (counterexample to the iff the claim states): after a
successful refresh that found zero active zones, a prior snapshot *does*
exist (`_cache_loaded = True`), yet a later fetch failure still raises —
the code tests the truthiness of the cached list, not the existence of a
snapshot.  A non-empty cached list, by contrast, is served stale. -/
theorem C4_cache_counterexample :
    (CacheState.mk true []).cache_loaded = true ∧
    (get_risk_zones_model ⟨true, []⟩ .fail).1 = .error () ∧
    (get_risk_zones_model ⟨false, [zoneHigh]⟩ .fail).1 = .ok [zoneHigh] :=
  ⟨rfl, rfl, rfl⟩

/-! ### C9 — fastest-slot invariant of the alternatives -/

theorem argminFoldAux_le (f : ℕ → ℤ) :
    ∀ (l : List ℕ) (acc : Option ℕ) (j : ℕ),
      List.foldl (argminStep f) acc l = some j →
      (∀ i ∈ l, f j ≤ f i) ∧ ∀ k, acc = some k → f j ≤ f k := by
  intro l
  induction l with
  | nil =>
    intro acc j hj
    simp only [List.foldl_nil] at hj
    subst hj
    exact ⟨by simp, fun k hk => by cases hk; exact le_refl _⟩
  | cons i rest ih =>
    intro acc j hj
    simp only [List.foldl_cons] at hj
    rcases acc with _ | k
    · obtain ⟨h1, h2⟩ := ih (some i) j hj
      refine ⟨fun i' hi' => ?_, fun k hk => by cases hk⟩
      rcases List.mem_cons.mp hi' with rfl | hm
      · exact h2 i' rfl
      · exact h1 i' hm
    · by_cases hlt : f i < f k
      · rw [show argminStep f (some k) i = some i from by
          simp [argminStep, hlt]] at hj
        obtain ⟨h1, h2⟩ := ih (some i) j hj
        refine ⟨fun i' hi' => ?_, fun k' hk' => ?_⟩
        · rcases List.mem_cons.mp hi' with rfl | hm
          · exact h2 i' rfl
          · exact h1 i' hm
        · cases hk'
          exact le_trans (h2 i rfl) (le_of_lt hlt)
      · rw [show argminStep f (some k) i = some k from by
          simp [argminStep, hlt]] at hj
        obtain ⟨h1, h2⟩ := ih (some k) j hj
        refine ⟨fun i' hi' => ?_, fun k' hk' => ?_⟩
        · rcases List.mem_cons.mp hi' with rfl | hm
          · exact le_trans (h2 k rfl) (not_lt.mp hlt)
          · exact h1 i' hm
        · cases hk'
          exact h2 k rfl

theorem argminFoldAux_some (f : ℕ → ℤ) :
    ∀ (l : List ℕ) (k : ℕ), ∃ j,
      List.foldl (argminStep f) (some k) l = some j := by
  intro l
  induction l with
  | nil => intro k; exact ⟨k, rfl⟩
  | cons i rest ih =>
    intro k
    simp only [List.foldl_cons]
    by_cases hlt : f i < f k
    · rw [show argminStep f (some k) i = some i from by simp [argminStep, hlt]]
      exact ih i
    · rw [show argminStep f (some k) i = some k from by simp [argminStep, hlt]]
      exact ih k

theorem fastest_index_min (routes : List RouteResponse) (hne : routes ≠ [])
    (i : ℕ) (hi : i < routes.length) :
    (routes.getD (fastest_index routes) default).summary.duration_seconds ≤
      (routes.getD i default).summary.duration_seconds := by
  have hmem : i ∈ List.range routes.length := List.mem_range.mpr hi
  obtain ⟨j, hj⟩ : ∃ j, argminFold
      (fun n => (routes.getD n default).summary.duration_seconds)
      (List.range routes.length) = some j := by
    have hlen : routes.length ≠ 0 := fun h0 => hne (List.length_eq_zero.mp h0)
    cases hR : List.range routes.length with
    | nil => exact absurd (List.range_eq_nil.mp hR) hlen
    | cons m ms =>
      unfold argminFold
      simp only [List.foldl_cons]
      exact argminFoldAux_some _ ms m
  have hle := (argminFoldAux_le
      (fun n => (routes.getD n default).summary.duration_seconds)
      (List.range routes.length) none j (by unfold argminFold at hj; exact hj)).1
    i hmem
  unfold fastest_index
  rw [hj]
  simpa using hle

/-- **C9** (confirmed).  For any three routes, after the post-computation
swap pass of `calculate_alternatives` the FASTEST slot (index 2) holds a
route whose duration is minimal among the returned routes; and the
`/alternatives` endpoint's `fastest_index` always designates a route of
minimal duration. -/
theorem C9_fastest_invariant :
    (∀ rs : List RouteResponse, rs.length = 3 →
      ∃ f, (alternativesSwap rs)[2]? = some f ∧
        ∀ r ∈ alternativesSwap rs,
          f.summary.duration_seconds ≤ r.summary.duration_seconds) ∧
    (∀ routes : List RouteResponse, routes ≠ [] →
      ∀ i, i < routes.length →
        (routes.getD (fastest_index routes) default).summary.duration_seconds ≤
          (routes.getD i default).summary.duration_seconds) := by
  constructor
  · intro rs h
    rcases rs with _ | ⟨a, rs⟩
    · simp at h
    rcases rs with _ | ⟨b, rs⟩
    · simp at h
    rcases rs with _ | ⟨c, rs⟩
    · simp at h
    rcases rs with _ | ⟨d, rs⟩
    swap
    · simp at h
    have hrange : List.range 3 = [0, 1, 2] := rfl
    by_cases h1 : a.summary.duration_seconds < c.summary.duration_seconds
    · have e0 : swapStep [a, b, c] 0 = [c, b, a] := by
        simp [swapStep, h1]
      by_cases h2 : b.summary.duration_seconds < a.summary.duration_seconds
      · have e1 : swapStep [c, b, a] 1 = [c, a, b] := by
          simp [swapStep, h2]
        have e2 : swapStep [c, a, b] 2 = [c, a, b] := by
          simp [swapStep]
        have hfold : alternativesSwap [a, b, c] = [c, a, b] := by
          unfold alternativesSwap
          rw [if_pos (by simp), List.length_cons, List.length_cons,
            List.length_cons, List.length_nil, hrange]
          simp only [List.foldl_cons, List.foldl_nil, e0, e1, e2]
        rw [hfold]
        refine ⟨b, rfl, fun r hr => ?_⟩
        simp only [List.mem_cons, List.not_mem_nil, or_false] at hr
        rcases hr with rfl | rfl | rfl <;> omega
      · have e1 : swapStep [c, b, a] 1 = [c, b, a] := by
          simp [swapStep, h2]
        have e2 : swapStep [c, b, a] 2 = [c, b, a] := by
          simp [swapStep]
        have hfold : alternativesSwap [a, b, c] = [c, b, a] := by
          unfold alternativesSwap
          rw [if_pos (by simp), List.length_cons, List.length_cons,
            List.length_cons, List.length_nil, hrange]
          simp only [List.foldl_cons, List.foldl_nil, e0, e1, e2]
        rw [hfold]
        refine ⟨a, rfl, fun r hr => ?_⟩
        simp only [List.mem_cons, List.not_mem_nil, or_false] at hr
        rcases hr with rfl | rfl | rfl <;> omega
    · have e0 : swapStep [a, b, c] 0 = [a, b, c] := by
        simp [swapStep, h1]
      by_cases h2 : b.summary.duration_seconds < c.summary.duration_seconds
      · have e1 : swapStep [a, b, c] 1 = [a, c, b] := by
          simp [swapStep, h2]
        have e2 : swapStep [a, c, b] 2 = [a, c, b] := by
          simp [swapStep]
        have hfold : alternativesSwap [a, b, c] = [a, c, b] := by
          unfold alternativesSwap
          rw [if_pos (by simp), List.length_cons, List.length_cons,
            List.length_cons, List.length_nil, hrange]
          simp only [List.foldl_cons, List.foldl_nil, e0, e1, e2]
        rw [hfold]
        refine ⟨b, rfl, fun r hr => ?_⟩
        simp only [List.mem_cons, List.not_mem_nil, or_false] at hr
        rcases hr with rfl | rfl | rfl <;> omega
      · have e1 : swapStep [a, b, c] 1 = [a, b, c] := by
          simp [swapStep, h2]
        have e2 : swapStep [a, b, c] 2 = [a, b, c] := by
          simp [swapStep]
        have hfold : alternativesSwap [a, b, c] = [a, b, c] := by
          unfold alternativesSwap
          rw [if_pos (by simp), List.length_cons, List.length_cons,
            List.length_cons, List.length_nil, hrange]
          simp only [List.foldl_cons, List.foldl_nil, e0, e1, e2]
        rw [hfold]
        refine ⟨c, rfl, fun r hr => ?_⟩
        simp only [List.mem_cons, List.not_mem_nil, or_false] at hr
        rcases hr with rfl | rfl | rfl <;> omega
  · exact fastest_index_min

/-- Witness for `C9_fastest_invariant` at concrete three- and one-element
route lists. -/
theorem C9_fastest_invariant_witness :
    ([(default : RouteResponse), default, default].length = 3) ∧
    (∃ f, (alternativesSwap [(default : RouteResponse), default, default])[2]? =
        some f ∧
      ∀ r ∈ alternativesSwap [(default : RouteResponse), default, default],
        f.summary.duration_seconds ≤ r.summary.duration_seconds) ∧
    ([(default : RouteResponse)] ≠ []) ∧ (0 < 1) ∧
    (([(default : RouteResponse)].getD
        (fastest_index [(default : RouteResponse)]) default).summary.duration_seconds ≤
      ([(default : RouteResponse)].getD 0 default).summary.duration_seconds) :=
  ⟨rfl, C9_fastest_invariant.1 [default, default, default] rfl,
    by simp, by norm_num,
    C9_fastest_invariant.2 [default] (by simp) 0 (by simp)⟩

/-! ### C1 — SAFEST purity / absence of a degraded flag -/

theorem parse_ok_warnings (ext : Ext) (resp : VResp) (st : OrState)
    (r : RouteResponse) (st2 : OrState)
    (h : _parse_valhalla_response ext resp st = (.ok r, st2)) :
    r.warnings = [] := by
  unfold _parse_valhalla_response at h
  split at h
  · simp at h
  · split at h
    · simp at h
    · split at h
      · simp at h
      · split at h
        · simp at h
        · simp only [Prod.mk.injEq, Except.ok.injEq] at h
          rw [← h.1]

theorem updateBest_warnings (best : Option (RouteResponse × ℤ))
    (route : RouteResponse)
    (hbest : ∀ b, best = some b → b.1.warnings = [])
    (hroute : route.warnings = []) :
    ∀ b, updateBest best route = some b → b.1.warnings = [] := by
  intro b hb
  rcases best with _ | p
  · unfold updateBest at hb
    cases hb
    exact hroute
  · unfold updateBest at hb
    dsimp only at hb
    by_cases hlt : route.summary.duration_seconds < p.2
    · rw [if_pos hlt] at hb
      cases hb
      exact hroute
    · rw [if_neg hlt] at hb
      cases hb
      exact hbest _ rfl

theorem fastestLoop_warnings (ext : Ext) (request : RouteRequest) :
    ∀ (opts : List BicycleOptions) (best : Option (RouteResponse × ℤ))
      (st : OrState),
      (∀ b, best = some b → b.1.warnings = []) →
      ∀ b', (fastestLoop ext request opts best st).1 = some b' →
        b'.1.warnings = [] := by
  intro opts
  induction opts with
  | nil =>
    intro best st hbest b' hb'
    exact hbest b' hb'
  | cons opt rest ih =>
    intro best st hbest b' hb'
    unfold fastestLoop at hb'
    dsimp only at hb'
    split at hb'
    · exact ih best _ hbest b' hb'
    · exact ih best _ hbest b' hb'
    · split at hb'
      · exact ih best _ hbest b' hb'
      · next route st2 heq =>
        exact ih _ _ (updateBest_warnings best route hbest
          (parse_ok_warnings ext _ _ _ _ heq)) b' hb'

theorem fastestAltFold_warnings (ext : Ext) :
    ∀ (alts : List VResp) (best : Option (RouteResponse × ℤ)) (st : OrState),
      (∀ b, best = some b → b.1.warnings = []) →
      ∀ b', (fastestAltFold ext alts best st).1 = some b' →
        b'.1.warnings = [] := by
  intro alts
  induction alts with
  | nil =>
    intro best st hbest b' hb'
    exact hbest b' hb'
  | cons alt rest ih =>
    intro best st hbest b' hb'
    unfold fastestAltFold at hb'
    split at hb'
    · exact ih best _ hbest b' hb'
    · next route st2 heq =>
      exact ih _ _ (updateBest_warnings best route hbest
        (parse_ok_warnings ext _ _ _ _ heq)) b' hb'

theorem fastestAlternates_warnings (ext : Ext) (request : RouteRequest)
    (best : Option (RouteResponse × ℤ)) (st : OrState)
    (hbest : ∀ b, best = some b → b.1.warnings = []) :
    ∀ b', (fastestAlternates ext request best st).1 = some b' →
      b'.1.warnings = [] := by
  intro b' hb'
  unfold fastestAlternates at hb'
  dsimp only at hb'
  split at hb'
  · exact hbest b' hb'
  · exact hbest b' hb'
  · split at hb'
    · exact hbest b' hb'
    · next route st2 heq =>
      exact fastestAltFold_warnings ext _ _ _
        (updateBest_warnings best route hbest
          (parse_ok_warnings ext _ _ _ _ heq)) b' hb'

theorem basic_ok_warnings (ext : Ext) (request : RouteRequest) (st : OrState)
    (r : RouteResponse) (st2 : OrState)
    (h : _calculate_basic_safest ext request st = (.ok r, st2)) :
    r.warnings = [] := by
  unfold _calculate_basic_safest at h
  dsimp only at h
  split at h
  · simp at h
  · simp at h
  · exact parse_ok_warnings ext _ _ _ _ h

theorem fastest_ok_warnings (ext : Ext) (request : RouteRequest) (st : OrState)
    (r : RouteResponse) (st2 : OrState)
    (h : _calculate_fastest_route ext request st = (.ok r, st2)) :
    r.warnings = [] := by
  unfold _calculate_fastest_route at h
  dsimp only at h
  split at h
  · next b heq =>
    simp only [Prod.mk.injEq, Except.ok.injEq] at h
    rw [← h.1]
    exact fastestAlternates_warnings ext request _ _
      (fun b0 hb0 => fastestLoop_warnings ext request fastest_route_options
        none st (fun x hx => by cases hx) b0 hb0) b heq
  · exact basic_ok_warnings ext request _ r st2 h

theorem stage1Trips_warnings (ext : Ext) (all_zones risk_zones_data : List Zone)
    (min_severity : String) :
    ∀ (trips : List VResp) (vs : List ValidEntry) (fs : List FallbackEntry)
      (st : OrState) (p : List ValidEntry × List FallbackEntry) (st' : OrState),
      stage1Trips ext all_zones risk_zones_data min_severity trips vs fs st =
        (p, st') →
      (∀ e ∈ vs, e.1.warnings = []) → (∀ e ∈ fs, e.1.warnings = []) →
      (∀ e ∈ p.1, e.1.warnings = []) ∧ (∀ e ∈ p.2, e.1.warnings = []) := by
  intro trips
  induction trips with
  | nil =>
    intro vs fs st p st' h hv hf
    cases h
    exact ⟨hv, hf⟩
  | cons trip rest ih =>
    intro vs fs st p st' h hv hf
    unfold stage1Trips at h
    split at h
    · exact ih _ _ _ _ _ h hv hf
    · next route st2 heq =>
      dsimp only at h
      split at h
      · exact ih _ _ _ _ _ h hv hf
      · split at h
        · refine ih _ _ _ _ _ h ?_ hf
          intro e he
          rcases List.mem_append.mp he with h1 | h2
          · exact hv e h1
          · rw [List.mem_singleton.mp h2]
            exact parse_ok_warnings ext _ _ _ _ heq
        · refine ih _ _ _ _ _ h hv ?_
          intro e he
          rcases List.mem_append.mp he with h1 | h2
          · exact hf e h1
          · rw [List.mem_singleton.mp h2]
            exact parse_ok_warnings ext _ _ _ _ heq

theorem stage1Loop_warnings (ext : Ext) (all_zones risk_zones_data : List Zone)
    (min_severity : String) :
    ∀ (reqs : List VRequest) (vs : List ValidEntry) (fs : List FallbackEntry)
      (st : OrState) (p : List ValidEntry × List FallbackEntry) (st' : OrState),
      stage1Loop ext all_zones risk_zones_data min_severity reqs vs fs st =
        (p, st') →
      (∀ e ∈ vs, e.1.warnings = []) → (∀ e ∈ fs, e.1.warnings = []) →
      (∀ e ∈ p.1, e.1.warnings = []) ∧ (∀ e ∈ p.2, e.1.warnings = []) := by
  intro reqs
  induction reqs with
  | nil =>
    intro vs fs st p st' h hv hf
    cases h
    exact ⟨hv, hf⟩
  | cons req rest ih =>
    intro vs fs st p st' h hv hf
    unfold stage1Loop at h
    dsimp only at h
    split at h
    · exact ih _ _ _ _ _ h hv hf
    · exact ih _ _ _ _ _ h hv hf
    · obtain ⟨g1, g2⟩ := stage1Trips_warnings ext all_zones risk_zones_data
        min_severity _ vs fs _ _ _ Prod.mk.eta.symm hv hf
      exact ih _ _ _ _ _ h g1 g2

theorem stage25Trips_warnings (ext : Ext) (all_zones : List Zone)
    (min_severity : String) (f0passes : ℕ) :
    ∀ (trips : List VResp) (vs : List ValidEntry) (fs : List FallbackEntry)
      (st : OrState) (p : List ValidEntry × List FallbackEntry) (st' : OrState),
      stage25Trips ext all_zones min_severity f0passes trips vs fs st =
        (p, st') →
      (∀ e ∈ vs, e.1.warnings = []) → (∀ e ∈ fs, e.1.warnings = []) →
      (∀ e ∈ p.1, e.1.warnings = []) ∧ (∀ e ∈ p.2, e.1.warnings = []) := by
  intro trips
  induction trips with
  | nil =>
    intro vs fs st p st' h hv hf
    cases h
    exact ⟨hv, hf⟩
  | cons trip rest ih =>
    intro vs fs st p st' h hv hf
    unfold stage25Trips at h
    split at h
    · exact ih _ _ _ _ _ h hv hf
    · next route st2 heq =>
      dsimp only at h
      split at h
      · exact ih _ _ _ _ _ h hv hf
      · split at h
        · refine ih _ _ _ _ _ h ?_ hf
          intro e he
          rcases List.mem_append.mp he with h1 | h2
          · exact hv e h1
          · rw [List.mem_singleton.mp h2]
            exact parse_ok_warnings ext _ _ _ _ heq
        · split at h
          · refine ih _ _ _ _ _ h hv ?_
            intro e he
            rcases List.mem_append.mp he with h1 | h2
            · exact hf e h1
            · rw [List.mem_singleton.mp h2]
              exact parse_ok_warnings ext _ _ _ _ heq
          · exact ih _ _ _ _ _ h hv hf

theorem stage25OptLoop_warnings (ext : Ext) (request : RouteRequest)
    (all_zones : List Zone) (min_severity : String) (f0passes : ℕ)
    (focused : List (List Coord)) :
    ∀ (opts : List BicycleOptions) (vs : List ValidEntry)
      (fs : List FallbackEntry) (st : OrState)
      (p : List ValidEntry × List FallbackEntry) (st' : OrState),
      stage25OptLoop ext request all_zones min_severity f0passes focused opts
        vs fs st = (p, st') →
      (∀ e ∈ vs, e.1.warnings = []) → (∀ e ∈ fs, e.1.warnings = []) →
      (∀ e ∈ p.1, e.1.warnings = []) ∧ (∀ e ∈ p.2, e.1.warnings = []) := by
  intro opts
  induction opts with
  | nil =>
    intro vs fs st p st' h hv hf
    cases h
    exact ⟨hv, hf⟩
  | cons opt rest ih =>
    intro vs fs st p st' h hv hf
    unfold stage25OptLoop at h
    dsimp only at h
    split at h
    · exact ih _ _ _ _ _ h hv hf
    · exact ih _ _ _ _ _ h hv hf
    · obtain ⟨g1, g2⟩ := stage25Trips_warnings ext all_zones min_severity
        f0passes _ vs fs _ _ _ Prod.mk.eta.symm hv hf
      exact ih _ _ _ _ _ h g1 g2

theorem stage25AltTrips_warnings (ext : Ext) (all_zones : List Zone)
    (min_severity : String) :
    ∀ (trips : List VResp) (vs : List ValidEntry) (st : OrState)
      (out : List ValidEntry) (st' : OrState),
      stage25AltTrips ext all_zones min_severity trips vs st = (out, st') →
      (∀ e ∈ vs, e.1.warnings = []) →
      ∀ e ∈ out, e.1.warnings = [] := by
  intro trips
  induction trips with
  | nil =>
    intro vs st out st' h hv
    cases h
    exact hv
  | cons trip rest ih =>
    intro vs st out st' h hv
    unfold stage25AltTrips at h
    split at h
    · exact ih _ _ _ _ h hv
    · next route st2 heq =>
      split at h
      · exact ih _ _ _ _ h hv
      · split at h
        · refine ih _ _ _ _ h ?_
          intro e he
          rcases List.mem_append.mp he with h1 | h2
          · exact hv e h1
          · rw [List.mem_singleton.mp h2]
            exact parse_ok_warnings ext _ _ _ _ heq
        · exact ih _ _ _ _ h hv

theorem stage25_warnings (ext : Ext) (request : RouteRequest)
    (all_zones risk_zones_data : List Zone) (min_severity : String)
    (fs : List FallbackEntry) (st : OrState)
    (p : List ValidEntry × List FallbackEntry) (st' : OrState)
    (h : stage25 ext request all_zones risk_zones_data min_severity fs st =
      (p, st'))
    (hf : ∀ e ∈ fs, e.1.warnings = []) :
    (∀ e ∈ p.1, e.1.warnings = []) ∧ (∀ e ∈ p.2, e.1.warnings = []) := by
  unfold stage25 at h
  dsimp only at h
  split at h
  · cases h
    exact ⟨by simp, hf⟩
  · split at h
    · cases h
      exact ⟨by simp, hf⟩
    · split at h
      · cases h
        exact ⟨by simp, by simp⟩
      · rename_i f0 ftail hn1 hn2
        split at h
        · cases h
          exact stage25OptLoop_warnings ext request all_zones min_severity
            f0.2.1 _ safest_route_options [] (f0 :: ftail) _ _ _
            Prod.mk.eta.symm (by simp) hf
        · cases h
          exact stage25OptLoop_warnings ext request all_zones min_severity
            f0.2.1 _ safest_route_options [] (f0 :: ftail) _ _ _
            Prod.mk.eta.symm (by simp) hf
        · next body heq =>
          cases h
          refine ⟨stage25AltTrips_warnings ext all_zones min_severity
            (body :: body.alternates) _ _ _ _ Prod.mk.eta.symm
            (stage25OptLoop_warnings ext request all_zones min_severity
              f0.2.1 _ safest_route_options [] (f0 :: ftail) _ _ _
              Prod.mk.eta.symm (by simp) hf).1, ?_⟩
          exact (stage25OptLoop_warnings ext request all_zones min_severity
            f0.2.1 _ safest_route_options [] (f0 :: ftail) _ _ _
            Prod.mk.eta.symm (by simp) hf).2

theorem stage12_warnings (ext : Ext) (request : RouteRequest)
    (all_zones risk_zones_data : List Zone) (min_severity : String)
    (st : OrState) (p : List ValidEntry × List FallbackEntry) (st' : OrState)
    (h : stage12 ext request all_zones risk_zones_data min_severity st =
      (p, st')) :
    (∀ e ∈ p.1, e.1.warnings = []) ∧ (∀ e ∈ p.2, e.1.warnings = []) := by
  unfold stage12 at h
  dsimp only at h
  obtain ⟨g1, g2⟩ := stage1Loop_warnings ext all_zones risk_zones_data
    min_severity _ [] [] st _ _ Prod.mk.eta.symm (by simp) (by simp)
  split at h
  · exact stage25_warnings ext request all_zones risk_zones_data min_severity
      _ _ _ _ h g2
  · cases h
    exact ⟨g1, g2⟩

theorem iter_warnings (ext : Ext) (request : RouteRequest)
    (risk_zones_data all_zones : List Zone) (min_severity : String) :
    ∀ (fuel iteration : ℕ) (best : RouteResponse) (bv : Option ℕ)
      (st : OrState) (res : Option RouteResponse) (st' : OrState),
      _iterative_zone_avoidance ext request risk_zones_data all_zones
        min_severity fuel iteration best bv st = (res, st') →
      best.warnings = [] →
      ∀ route, res = some route → route.warnings = [] := by
  intro fuel
  induction fuel with
  | zero =>
    intro iteration best bv st res st' h hb route hr
    cases h
    cases hr
  | succ n ih =>
    intro iteration best bv st res st' h hb route hr
    unfold _iterative_zone_avoidance at h
    dsimp only at h
    split at h
    · cases h
      cases hr
      exact hb
    · split at h
      · cases h
        cases hr
      · split at h
        · cases h
          cases hr
        · split at h
          · exact ih _ _ _ _ _ _ h hb route hr
          · exact ih _ _ _ _ _ _ h hb route hr
          · split at h
            · exact ih _ _ _ _ _ _ h hb route hr
            · next route2 st2 heq =>
              split at h
              · exact ih _ _ _ _ _ _ h hb route hr
              · split at h
                · cases h
                  cases hr
                  exact parse_ok_warnings ext _ _ _ _ heq
                · split at h
                  · exact ih _ _ _ _ _ _ h
                      (parse_ok_warnings ext _ _ _ _ heq) route hr
                  · exact ih _ _ _ _ _ _ h hb route hr

theorem wpLoop_warnings (ext : Ext) (request : RouteRequest)
    (all_zones : List Zone) (min_severity : String)
    (excl : Option (List (List Coord))) :
    ∀ (wps : List (ℝ × ℝ)) (best : Option RouteResponse) (bp : Option ℕ)
      (st : OrState) (out : WpOut) (st' : OrState),
      wpLoop ext request all_zones min_severity excl wps best bp st =
        (out, st') →
      (∀ b, best = some b → b.warnings = []) →
      (∀ route, out = .found route → route.warnings = []) ∧
      (∀ b bp2, out = .exhausted b bp2 → ∀ x, b = some x → x.warnings = []) := by
  intro wps
  induction wps with
  | nil =>
    intro best bp st out st' h hbest
    cases h
    constructor
    · intro route hr
      cases hr
    · intro b bp2 hout x hx
      cases hout
      exact hbest x hx
  | cons wp rest ih =>
    intro best bp st out st' h hbest
    unfold wpLoop at h
    dsimp only at h
    split at h
    · exact ih _ _ _ _ _ h hbest
    · exact ih _ _ _ _ _ h hbest
    · split at h
      · exact ih _ _ _ _ _ h hbest
      · next route2 st2 heq =>
        split at h
        · exact ih _ _ _ _ _ h hbest
        · split at h
          · cases h
            refine ⟨fun route hr => ?_, fun b bp2 hout => by cases hout⟩
            cases hr
            exact parse_ok_warnings ext _ _ _ _ heq
          · split at h
            · refine ih _ _ _ _ _ h ?_
              intro b hbeq
              cases hbeq
              exact parse_ok_warnings ext _ _ _ _ heq
            · exact ih _ _ _ _ _ h hbest

theorem chainLoop_warnings (ext : Ext) (request : RouteRequest)
    (risk_zones_data all_zones zones_on_path : List Zone)
    (min_severity : String) (perp : ℝ × ℝ)
    (excl : Option (List (List Coord))) :
    ∀ (attempts : List ℕ) (best : Option RouteResponse) (bp : Option ℕ)
      (st : OrState) (out : WpOut) (st' : OrState),
      chainLoop ext request risk_zones_data all_zones zones_on_path
        min_severity perp excl attempts best bp st = (out, st') →
      (∀ b, best = some b → b.warnings = []) →
      (∀ route, out = .found route → route.warnings = []) ∧
      (∀ b bp2, out = .exhausted b bp2 → ∀ x, b = some x → x.warnings = []) := by
  intro attempts
  induction attempts with
  | nil =>
    intro best bp st out st' h hbest
    cases h
    constructor
    · intro route hr
      cases hr
    · intro b bp2 hout x hx
      cases hout
      exact hbest x hx
  | cons attempt rest ih =>
    intro best bp st out st' h hbest
    unfold chainLoop at h
    dsimp only at h
    split at h
    · exact ih _ _ _ _ _ h hbest
    · exact ih _ _ _ _ _ h hbest
    · split at h
      · exact ih _ _ _ _ _ h hbest
      · next route2 st2 heq =>
        split at h
        · exact ih _ _ _ _ _ h hbest
        · split at h
          · cases h
            refine ⟨fun route hr => ?_, fun b bp2 hout => by cases hout⟩
            cases hr
            exact parse_ok_warnings ext _ _ _ _ heq
          · split at h
            · refine ih _ _ _ _ _ h ?_
              intro b hbeq
              cases hbeq
              exact parse_ok_warnings ext _ _ _ _ heq
            · exact ih _ _ _ _ _ h hbest

theorem tryWay_warnings (ext : Ext) (request : RouteRequest)
    (risk_zones_data all_zones : List Zone) (min_severity : String)
    (st : OrState) (res : Option RouteResponse) (st' : OrState)
    (h : _try_waypoint_avoidance ext request risk_zones_data all_zones
      min_severity st = (res, st')) :
    ∀ route, res = some route → route.warnings = [] := by
  intro route hr
  unfold _try_waypoint_avoidance at h
  dsimp only at h
  split at h
  · cases h
    cases hr
  · split at h
    · next route2 heq =>
      cases h
      cases hr
      exact (wpLoop_warnings ext request all_zones min_severity _ _ none none
        _ _ _ Prod.mk.eta.symm (fun b hb => by cases hb)).1 _ heq
    · next best bp heq1 =>
      have hbestgood : ∀ b, best = some b → b.warnings = [] :=
        (wpLoop_warnings ext request all_zones min_severity _ _ none none
          _ _ _ Prod.mk.eta.symm (fun b hb => by cases hb)).2 best bp heq1
      split at h
      · next route2 heq2 =>
        cases h
        cases hr
        rename_i hcond
        revert heq2
        split
        · intro heq2
          exact (chainLoop_warnings ext request risk_zones_data all_zones _
            min_severity _ _ [0, 1, 2, 3] best bp _ _ _ Prod.mk.eta.symm
            hbestgood).1 _ heq2
        · intro heq2
          cases heq2
      · next best2 bp2 heq2 =>
        have hbest2good : ∀ x, best2 = some x → x.warnings = [] := by
          revert heq2
          split
          · intro heq2
            exact (chainLoop_warnings ext request risk_zones_data all_zones _
              min_severity _ _ [0, 1, 2, 3] best bp _ _ _ Prod.mk.eta.symm
              hbestgood).2 best2 bp2 heq2
          · intro heq2
            cases heq2
            exact hbestgood
        cases h
        revert hr
        split
        · intro hr
          exact hbest2good route hr
        · intro hr
          cases hr

theorem safest_ok_warnings (ext : Ext) (request : RouteRequest)
    (min_severity : String) (st : OrState) (r : RouteResponse) (st' : OrState)
    (h : _calculate_safest_route ext request min_severity st = (.ok r, st')) :
    r.warnings = [] := by
  unfold _calculate_safest_route at h
  split at h
  · simp at h
  · rename_i az heqz
    dsimp only at h
    split at h
    · exact basic_ok_warnings ext request st r st' h
    · split at h
      · next best rest heq =>
        simp only [Prod.mk.injEq, Except.ok.injEq] at h
        rw [← h.1]
        have hmem : best ∈ (stage12 ext request az
            (filter_zones_by_severity az min_severity) min_severity st).1.1 :=
          List.mem_mergeSort.mp (show best ∈ (stage12 ext request az
              (filter_zones_by_severity az min_severity) min_severity
              st).1.1.mergeSort (fun a b => decide (a.2.1 ≤ b.2.1)) by
            rw [heq]
            exact List.mem_cons_self _ _)
        exact (stage12_warnings ext request az
          (filter_zones_by_severity az min_severity) min_severity st _ _
          Prod.mk.eta.symm).1 best hmem
      · split at h
        · split at h
          · next route heq2 =>
            simp only [Prod.mk.injEq, Except.ok.injEq] at h
            rw [← h.1]
            exact tryWay_warnings ext request _ _ min_severity _ _ _
              Prod.mk.eta.symm _ heq2
          · exact basic_ok_warnings ext request _ r st' h
        · next bf rest' heq2 =>
          have hbf : bf.1.warnings = [] := by
            have hmem : bf ∈ (stage12 ext request az
                (filter_zones_by_severity az min_severity) min_severity
                st).1.2 :=
              List.mem_mergeSort.mp (show bf ∈ (stage12 ext request az
                  (filter_zones_by_severity az min_severity) min_severity
                  st).1.2.mergeSort fbLE by
                rw [heq2]
                exact List.mem_cons_self _ _)
            exact (stage12_warnings ext request az
              (filter_zones_by_severity az min_severity) min_severity st _ _
              Prod.mk.eta.symm).2 bf hmem
          split at h
          · next route heq3 =>
            simp only [Prod.mk.injEq, Except.ok.injEq] at h
            rw [← h.1]
            exact iter_warnings ext request _ _ min_severity 5 0 bf.1 none _ _ _
              Prod.mk.eta.symm hbf _ heq3
          · split at h
            · next route heq4 =>
              simp only [Prod.mk.injEq, Except.ok.injEq] at h
              rw [← h.1]
              exact tryWay_warnings ext request _ _ min_severity _ _ _
                Prod.mk.eta.symm _ heq4
            · simp only [Prod.mk.injEq, Except.ok.injEq] at h
              rw [← h.1]
              exact hbf

theorem blOptLoop_warnings (ext : Ext) (request : RouteRequest)
    (all_zones : List Zone) (excl : Option (List (List Coord))) :
    ∀ (opts : List BicycleOptions) (cs : List BLCandidate) (st : OrState)
      (out : List BLCandidate) (st' : OrState),
      blOptLoop ext request all_zones excl opts cs st = (out, st') →
      (∀ c ∈ cs, c.route.warnings = []) →
      ∀ c ∈ out, c.route.warnings = [] := by
  intro opts
  induction opts with
  | nil =>
    intro cs st out st' h hc
    cases h
    exact hc
  | cons opt rest ih =>
    intro cs st out st' h hc
    unfold blOptLoop at h
    dsimp only at h
    split at h
    · exact ih _ _ _ _ h hc
    · exact ih _ _ _ _ h hc
    · split at h
      · exact ih _ _ _ _ h hc
      · next route st2 heq =>
        split at h
        · exact ih _ _ _ _ h hc
        · refine ih _ _ _ _ h ?_
          intro c hcm
          rcases List.mem_append.mp hcm with h1 | h2
          · exact hc c h1
          · rw [List.mem_singleton.mp h2]
            exact parse_ok_warnings ext _ _ _ _ heq

theorem blAltTrips_warnings (ext : Ext) (all_zones : List Zone) :
    ∀ (trips : List VResp) (cs : List BLCandidate) (st : OrState)
      (out : List BLCandidate) (st' : OrState),
      blAltTrips ext all_zones trips cs st = (out, st') →
      (∀ c ∈ cs, c.route.warnings = []) →
      ∀ c ∈ out, c.route.warnings = [] := by
  intro trips
  induction trips with
  | nil =>
    intro cs st out st' h hc
    cases h
    exact hc
  | cons trip rest ih =>
    intro cs st out st' h hc
    unfold blAltTrips at h
    split at h
    · exact ih _ _ _ _ h hc
    · next route st2 heq =>
      split at h
      · exact ih _ _ _ _ h hc
      · refine ih _ _ _ _ h ?_
        intro c hcm
        rcases List.mem_append.mp hcm with h1 | h2
        · exact hc c h1
        · rw [List.mem_singleton.mp h2]
          exact parse_ok_warnings ext _ _ _ _ heq

theorem blCandidates_warnings (ext : Ext) (request : RouteRequest)
    (all_zones : List Zone) (excl : Option (List (List Coord)))
    (st : OrState) :
    ∀ c ∈ (blCandidates ext request all_zones excl st).1,
      c.route.warnings = [] := by
  intro c hc
  revert hc
  unfold blCandidates
  dsimp only
  split
  · exact fun hc => blOptLoop_warnings ext request all_zones excl
      bike_lane_options [] _ _ _ Prod.mk.eta.symm (by simp) c hc
  · exact fun hc => blOptLoop_warnings ext request all_zones excl
      bike_lane_options [] _ _ _ Prod.mk.eta.symm (by simp) c hc
  · next body heq =>
    exact fun hc => blAltTrips_warnings ext all_zones (body :: body.alternates)
      _ _ _ _ Prod.mk.eta.symm
      (blOptLoop_warnings ext request all_zones excl bike_lane_options [] _
        _ _ Prod.mk.eta.symm (by simp)) c hc

theorem blFold_warnings (min_distance : ℝ) :
    ∀ (l : List BLCandidate) (acc : BLCandidate), acc.route.warnings = [] →
      (∀ c ∈ l, c.route.warnings = []) →
      (l.foldl (fun acc c =>
        if blScore min_distance c > blScore min_distance acc then c else acc)
        acc).route.warnings = [] := by
  intro l
  induction l with
  | nil =>
    intro acc ha _
    exact ha
  | cons c rest ih =>
    intro acc ha hl
    simp only [List.foldl_cons]
    by_cases hcmp : blScore min_distance c > blScore min_distance acc
    · rw [if_pos hcmp]
      exact ih c (hl c (List.mem_cons_self _ _))
        (fun x hx => hl x (List.mem_cons_of_mem _ hx))
    · rw [if_neg hcmp]
      exact ih acc ha (fun x hx => hl x (List.mem_cons_of_mem _ hx))

theorem bl_ok_warnings (ext : Ext) (request : RouteRequest) (st : OrState)
    (r : RouteResponse) (st' : OrState)
    (h : _calculate_bike_lane_preferred_route ext request st = (.ok r, st')) :
    r.warnings = [] := by
  unfold _calculate_bike_lane_preferred_route at h
  split at h
  · simp at h
  · rename_i az heqz
    dsimp only at h
    split at h
    · exact safest_ok_warnings ext request "LOW" _ r st' h
    · next c0 crest heqc =>
      have hcand : ∀ c ∈ c0 :: crest, c.route.warnings = [] := by
        intro c hc
        refine blCandidates_warnings ext request az
          (match get_exclude_polygon_batches az 1.5 "LOW" 9500 with
           | [] => none
           | b :: _ => if b = [] then none else some b) st c ?_
        rw [heqc]
        exact hc
      split at h
      · next v0 vrest heqf =>
        simp only [Prod.mk.injEq, Except.ok.injEq] at h
        rw [← h.1]
        refine blFold_warnings _ vrest v0 ?_ ?_
        · have hm : v0 ∈ (c0 :: crest).filter (fun c => c.is_valid) := by
            rw [heqf]
            exact List.mem_cons_self _ _
          exact hcand v0 (List.mem_of_mem_filter hm)
        · intro c hc2
          have hm : c ∈ (c0 :: crest).filter (fun c => c.is_valid) := by
            rw [heqf]
            exact List.mem_cons_of_mem _ hc2
          exact hcand c (List.mem_of_mem_filter hm)
      · split at h
        · next best rest2 heqs =>
          simp only [Prod.mk.injEq, Except.ok.injEq] at h
          rw [← h.1]
          have hm : best ∈ (c0 :: crest).mergeSort (fun a b =>
              decide (a.violations < b.violations ∨
                (a.violations = b.violations ∧ b.bike_pct ≤ a.bike_pct))) := by
            rw [heqs]
            exact List.mem_cons_self _ _
          exact hcand best (List.mem_mergeSort.mp hm)
        · simp at h

/-- **C1** (amended).  The orchestrator has no degraded-route flag: *every*
route `calculate_route` returns — including the violating fallback that
stage 6 of the avoidance pipeline hands back when no clean candidate
exists — carries `warnings = []` (`_parse_valhalla_response` always
constructs the response with an empty warnings list and no stage ever
adds to it), so the spec's "explicitly flags the returned route as
degraded" disjunct is never realised. -/
theorem C1_safest_amended (ext : Ext) (request : RouteRequest) (st : OrState)
    (r : RouteResponse) (st' : OrState)
    (h : calculate_route ext request st = (.ok r, st')) :
    r.warnings = [] := by
  unfold calculate_route at h
  by_cases h1 : request.preferences.profile = RouteProfile.safest
  · rw [if_pos h1] at h
    by_cases h2 : request.preferences.prefer_bike_lanes = true
    · rw [if_pos h2] at h
      exact bl_ok_warnings ext request st r st' h
    · rw [if_neg h2] at h
      exact safest_ok_warnings ext request "LOW" st r st' h
  · rw [if_neg h1] at h
    by_cases h3 : request.preferences.profile = RouteProfile.balanced
    · rw [if_pos h3] at h
      exact safest_ok_warnings ext request "HIGH" st r st' h
    · rw [if_neg h3] at h
      exact fastest_ok_warnings ext request st r st' h

set_option maxRecDepth 4000 in
theorem C1_decode : _decode_polyline "?_sdpH" 6 = some [((5 : ℚ), (0 : ℚ))] := by
  decide

theorem C1_legCoords :
    legCoords ⟨"?_sdpH", [], none, ⟨1, 600⟩⟩ = some [((5 : ℝ), (0 : ℝ))] := by
  unfold legCoords
  rw [C1_decode]
  norm_num

theorem C1_decodeAll :
    decodeAllLegs [⟨"?_sdpH", [], none, ⟨1, 600⟩⟩] =
      some [[((5 : ℝ), (0 : ℝ))]] := by
  unfold decodeAllLegs
  rw [C1_legCoords]
  rfl

theorem C1_af : avoidance_factor "LOW" = 0.25 := by
  unfold avoidance_factor
  rw [if_pos rfl]

theorem C1_filter : filter_zones_by_severity [zoneFar] "LOW" = [zoneFar] := by
  unfold filter_zones_by_severity
  rw [pyUpper_LOW]
  simp [severity_thresholds, zoneFar]

theorem C1_hav0 : _haversine_distance 0 5 zoneFar.lat zoneFar.lon = 0 := by
  unfold zoneFar
  exact _haversine_distance_self 0 5

theorem C1_zonesE : getRiskZonesE extC1 = .ok [zoneFar] := rfl

theorem C1_validate : ∃ viol : Violation,
    validate_route_against_zones [((5 : ℝ), (0 : ℝ))] [zoneFar] "LOW"
      (avoidance_factor "LOW") = (false, 1, [viol]) ∧
    viol.zone_id = "zf" := by
  have hfind : List.find? (fun c : Coord =>
      decide (_haversine_distance c.2 c.1 zoneFar.lat zoneFar.lon <
        zoneFar.radius_meters * avoidance_factor "LOW"))
      [((5 : ℝ), (0 : ℝ))] = some ((5 : ℝ), (0 : ℝ)) := by
    rw [List.find?_cons]
    rw [show (decide (_haversine_distance ((5:ℝ), (0:ℝ)).2 ((5:ℝ), (0:ℝ)).1
        zoneFar.lat zoneFar.lon <
        zoneFar.radius_meters * avoidance_factor "LOW")) = true from ?_]
    refine decide_eq_true ?_
    dsimp only
    rw [C1_hav0, C1_af]
    unfold zoneFar
    norm_num
  refine ⟨⟨zoneFar.id, zoneFar.reported_count,
    pyRound 1 (_haversine_distance (0 : ℝ) 5 zoneFar.lat zoneFar.lon),
    zoneFar.radius_meters,
    pyRound 1 (zoneFar.radius_meters * avoidance_factor "LOW")⟩, ?_, ?_⟩
  · unfold validate_route_against_zones
    simp only [C1_filter, List.filterMap_cons, List.filterMap_nil, hfind,
      Option.map_some']
    simp
  · simp [zoneFar]

theorem C1_focused : focusedPolygons (avoidance_factor "LOW") [zoneFar] 0 = [] := by
  rw [C1_af]
  unfold focusedPolygons
  rw [if_pos ?_]
  unfold zoneFar
  dsimp only
  nlinarith [Real.pi_gt_three]

theorem C1_parse_shape (st0 : OrState) :
    ∃ R, _parse_valhalla_response extC1 tripC1 st0 = (.ok R, st0) ∧
      R.geometry = [((5 : ℝ), (0 : ℝ))] ∧ R.warnings = [] := by
  have hbike : calculate_bike_lane_percentage extC1.laneDist
      [((5 : ℝ), (0 : ℝ))] 25 = 0 := by
    unfold calculate_bike_lane_percentage
    rw [if_pos (by simp)]
    norm_num
  have hacc : ∀ st1 : OrState, _get_accurate_bike_lane_percentage
      [((5 : ℝ), (0 : ℝ))] st1 = (0.0, st1) := by
    intro st1
    unfold _get_accurate_bike_lane_percentage
    rw [if_pos (by simp)]
  have hjoin : ([[((5 : ℝ), (0 : ℝ))]] : List (List Coord)).join =
      [((5 : ℝ), (0 : ℝ))] := by simp
  unfold _parse_valhalla_response tripC1
  dsimp only [VResp.trip]
  rw [if_neg (show ¬([(⟨"?_sdpH", [], none, ⟨1, 600⟩⟩ : VLeg)] = []) from
    by simp)]
  rw [C1_decodeAll]
  dsimp only
  rw [hjoin, hbike]
  rw [if_pos (show (0 : ℝ) = 0 ∧ (1 : ℝ) * 1000 > 0 from by norm_num)]
  rw [hacc st0]
  rw [C1_zonesE]
  dsimp only
  rw [if_neg (show ¬((0.0 : ℝ) > 0) from by norm_num)]
  exact ⟨_, rfl, rfl, rfl⟩

theorem C1_batches : ∃ poly, get_exclude_polygon_batches [zoneFar] 1.5 "LOW"
    9500 = [[poly]] := by
  unfold get_exclude_polygon_batches
  rw [if_neg (show ¬([zoneFar] = []) from by simp)]
  dsimp only
  rw [C1_filter]
  rw [show sortZonesDesc [zoneFar] = [zoneFar] from
    List.mergeSort_singleton _]
  unfold batchSelect
  rw [if_neg ?hcirc]
  case hcirc =>
    rw [show min zoneFar.radius_meters 150 = (150 : ℝ) from by
      unfold zoneFar
      dsimp only
      rw [min_eq_right (by norm_num)]]
    nlinarith [Real.pi_lt_315]
  unfold batchSelect
  rw [if_neg (show ¬([(zoneFar, min zoneFar.radius_meters 150 * 1.5)] =
    ([] : List (Zone × ℝ))) from by simp)]
  simp only [List.reverse_singleton, List.map_cons, List.map_nil]
  exact ⟨_, rfl⟩

theorem C1_cands (b : List (List Coord)) :
    ∃ c cs, stage1Candidates reqSafest [b] = c :: cs := by
  unfold stage1Candidates safest_route_options
  rw [if_pos (by simp)]
  simp only [List.map_cons, List.map_nil, List.flatten_cons,
    List.flatten_nil, List.append_nil, List.cons_append, List.nil_append]
  exact ⟨_, _, rfl⟩

theorem C1_loop_empty :
    ∀ (reqs : List VRequest) (vs : List ValidEntry) (fs : List FallbackEntry)
      (cs : List EngineCall),
      ∃ cs', stage1Loop extC1 [zoneFar] [zoneFar] "LOW" reqs vs fs ⟨[], cs⟩ =
        ((vs, fs), ⟨[], cs'⟩) := by
  intro reqs
  induction reqs with
  | nil =>
    intro vs fs cs
    exact ⟨cs, rfl⟩
  | cons req rest ih =>
    intro vs fs cs
    unfold stage1Loop
    rw [show takeReply ⟨[], cs⟩ (EngineCall.route req) =
      (Reply.err, ⟨[], cs ++ [EngineCall.route req]⟩) from rfl]
    exact ih vs fs _

theorem C1_stage1 : ∃ (entry : FallbackEntry) (cs1 : List EngineCall),
    stage1Loop extC1 [zoneFar] [zoneFar] "LOW"
      (stage1Candidates reqSafest
        (get_exclude_polygon_batches [zoneFar] 1.5 "LOW" 9500)) [] [] stC1 =
      (([], [entry]), ⟨[], cs1⟩) ∧
    entry.1.geometry = [((5 : ℝ), (0 : ℝ))] ∧ entry.1.warnings = [] := by
  obtain ⟨poly, hb⟩ := C1_batches
  rw [hb]
  obtain ⟨c, cs, hc⟩ := C1_cands [poly]
  rw [hc]
  obtain ⟨R, hpar, hgeo, hwarn⟩ := C1_parse_shape ⟨[], [EngineCall.route c]⟩
  obtain ⟨viol, hval, hvid⟩ := C1_validate
  have htrips : stage1Trips extC1 [zoneFar] [zoneFar] "LOW"
      (tripC1 :: tripC1.alternates) [] [] ⟨[], [EngineCall.route c]⟩ =
      (([], [(R, (calculate_route_risk_score [((5 : ℝ), (0 : ℝ))] [zoneFar]
        0.25).2.1, (calculate_route_risk_score [((5 : ℝ), (0 : ℝ))] [zoneFar]
        0.25).1, R.summary.distance_meters)]),
        ⟨[], [EngineCall.route c]⟩) := by
    rw [show tripC1.alternates = [] from rfl]
    unfold stage1Trips
    rw [hpar]
    dsimp only
    rw [if_neg (show ¬(R.geometry = []) from by rw [hgeo]; simp)]
    rw [hgeo, hval]
    rw [if_neg (show ¬(((false, 1, [viol]) :
      Bool × ℕ × List Violation).1 = true) from by simp)]
    unfold stage1Trips
    rw [List.nil_append]
  unfold stage1Loop
  rw [show takeReply stC1 (EngineCall.route c) =
    (Reply.success tripC1, ⟨[], [EngineCall.route c]⟩) from rfl]
  dsimp only
  rw [htrips]
  dsimp only
  obtain ⟨cs', hloop⟩ := C1_loop_empty cs [] _ [EngineCall.route c]
  rw [hloop]
  exact ⟨_, cs', rfl, hgeo, hwarn⟩

theorem C1_stage25 (entry : FallbackEntry)
    (hgeo : entry.1.geometry = [((5 : ℝ), (0 : ℝ))]) (st0 : OrState) :
    stage25 extC1 reqSafest [zoneFar] [zoneFar] "LOW" [entry] st0 =
      (([], [entry]), st0) := by
  obtain ⟨viol, hval, hvid⟩ := C1_validate
  unfold stage25
  dsimp only
  simp only [List.map_cons, List.map_nil]
  rw [hgeo, hval]
  dsimp only
  simp only [List.map_cons, List.map_nil, hvid, List.flatten]
  rw [if_neg (show ¬((["zf"] ++ [] : List String) = []) from by simp)]
  rw [show [zoneFar].filter
    (fun z => ((["zf"] ++ [] : List String)).contains z.id) = [zoneFar] from
    by simp [zoneFar]]
  rw [C1_focused]
  rw [if_pos rfl]

theorem C1_iter (R : RouteResponse)
    (hgeo : R.geometry = [((5 : ℝ), (0 : ℝ))]) :
    ∀ cs : List EngineCall, ∃ cs',
      _iterative_zone_avoidance extC1 reqSafest [zoneFar] [zoneFar] "LOW"
        5 0 R none ⟨[], cs⟩ = (none, ⟨[], cs'⟩) := by
  intro cs
  obtain ⟨viol, hval, hvid⟩ := C1_validate
  have hvz : [zoneFar].filter
      (fun z => (List.map Violation.zone_id [viol]).contains z.id) =
      [zoneFar] := by
    simp [zoneFar, hvid]
  show ∃ cs', _iterative_zone_avoidance extC1 reqSafest [zoneFar] [zoneFar]
    "LOW" (4 + 1) 0 R none ⟨[], cs⟩ = (none, ⟨[], cs'⟩)
  unfold _iterative_zone_avoidance
  dsimp only
  rw [hgeo, hval]
  rw [if_neg (show ¬(((false, 1, [viol]) :
    Bool × ℕ × List Violation).1 = true) from by simp)]
  rw [if_neg (show ¬bvStop none ((false, 1, [viol]) :
    Bool × ℕ × List Violation).2.1 from by simp [bvStop])]
  dsimp only
  rw [hvz]
  rw [if_neg (show ¬([zoneFar] = []) from by simp)]
  rw [C1_focused]
  rw [if_pos rfl]
  rw [show ∀ x, takeReply ⟨[], cs⟩ x = (Reply.err, ⟨[], cs ++ [x]⟩) from
    fun x => rfl]
  show ∃ cs', _iterative_zone_avoidance extC1 reqSafest [zoneFar] [zoneFar]
    "LOW" (3 + 1) 1 R (some ((false, 1, [viol]) :
      Bool × ℕ × List Violation).2.1) _ = (none, ⟨[], cs'⟩)
  unfold _iterative_zone_avoidance
  dsimp only
  rw [hgeo, hval]
  rw [if_neg (show ¬(((false, 1, [viol]) :
    Bool × ℕ × List Violation).1 = true) from by simp)]
  rw [if_pos (show bvStop (some ((false, 1, [viol]) :
    Bool × ℕ × List Violation).2.1) ((false, 1, [viol]) :
    Bool × ℕ × List Violation).2.1 from by simp [bvStop])]
  exact ⟨_, rfl⟩

theorem C1_zop : _find_zones_on_path ((0 : ℝ), (0 : ℝ))
    ((0 : ℝ), (0.001 : ℝ)) [zoneFar] = [] := by
  unfold _find_zones_on_path
  dsimp only
  rw [List.filter_cons, List.filter_nil]
  rw [if_neg ?hzf]
  case hzf =>
    rw [Bool.and_eq_true]
    rintro ⟨h1, h2⟩
    rw [decide_eq_true_eq] at h1
    revert h1
    unfold zoneFar
    dsimp only
    rw [show max (0 : ℝ) 0.001 = 0.001 from max_eq_right (by norm_num)]
    intro h1
    linarith [h1.2.2.2]

theorem C1_wayp (st0 : OrState) :
    _try_waypoint_avoidance extC1 reqSafest [zoneFar] [zoneFar] "LOW" st0 =
      (none, st0) := by
  unfold _try_waypoint_avoidance
  dsimp only [reqSafest]
  rw [C1_zop]
  rw [if_pos rfl]

theorem C1_run : ∃ R st',
    _calculate_safest_route extC1 reqSafest "LOW" stC1 = (.ok R, st') ∧
    R.geometry = [((5 : ℝ), (0 : ℝ))] ∧ R.warnings = [] := by
  obtain ⟨entry, cs1, hloop, hgeo, hwarn⟩ := C1_stage1
  unfold _calculate_safest_route
  rw [C1_zonesE]
  dsimp only
  rw [C1_filter]
  rw [if_neg (show ¬([zoneFar] = []) from by simp)]
  unfold stage12
  dsimp only
  rw [hloop]
  dsimp only
  rw [if_pos (show ([] : List ValidEntry) = [] ∧
    ([entry] : List FallbackEntry) ≠ [] from ⟨rfl, by simp⟩)]
  rw [C1_stage25 entry hgeo ⟨[], cs1⟩]
  dsimp only
  rw [show (([] : List ValidEntry).mergeSort
    (fun a b => decide (a.2.1 ≤ b.2.1))) = [] from List.mergeSort_nil]
  rw [List.mergeSort_singleton entry]
  dsimp only
  obtain ⟨cs2, hiter⟩ := C1_iter entry.1 hgeo cs1
  rw [hiter]
  dsimp only
  rw [C1_wayp ⟨[], cs2⟩]
  exact ⟨entry.1, ⟨[], cs2⟩, rfl, hgeo, hwarn⟩

/-- **C1** (counterexample).  A concrete SAFEST request, zone snapshot and
engine-reply sequence for which `calculate_route` returns a route that
passes straight through the centre of an active HIGH-severity zone
(violating the `0.25 · alert_radius` rule — `validate_route_against_zones`
rejects its geometry) while `warnings` is empty: no clean candidate
existed, the stage-6 fallback was returned, and nothing flags the route as
degraded. -/
theorem C1_safest_counterexample :
    (∃ R st', calculate_route extC1 reqSafest stC1 = (.ok R, st') ∧
      R.warnings = [] ∧ R.geometry = [((5 : ℝ), (0 : ℝ))]) ∧
    (validate_route_against_zones [((5 : ℝ), (0 : ℝ))] [zoneFar] "LOW"
      (avoidance_factor "LOW")).1 = false ∧
    reqSafest.preferences.profile = RouteProfile.safest ∧
    reqSafest.preferences.prefer_bike_lanes = false := by
  refine ⟨?_, ?_, rfl, rfl⟩
  · obtain ⟨R, st', hrun, hgeo, hwarn⟩ := C1_run
    exact ⟨R, st', hrun, hwarn, hgeo⟩
  · obtain ⟨viol, hval, _⟩ := C1_validate
    rw [hval]

/-- Witness for `C1_safest_amended`: the concrete C1 run returns a route,
and the theorem yields its empty warnings list. -/
theorem C1_safest_witness :
    ∃ R st', calculate_route extC1 reqSafest stC1 = (.ok R, st') ∧
      R.warnings = [] := by
  obtain ⟨R, st', hrun, hgeo, hwarn⟩ := C1_run
  exact ⟨R, st', hrun, C1_safest_amended extC1 reqSafest stC1 R st' hrun⟩

end SFMM
